import Mathlib

/-!
Verification development for the AP FRQ grading router
(src/ap-env-plus-router.py) and the general AP answer scorer
(src/ap-frq-grader.py).

The Python sources are shallowly embedded: parsed JSON documents become the
inductive `JVal` (JSON numbers are restricted to integers, which covers every
score field the programs manipulate), fallible Python statements become
`Except String` computations whose `.error` constructor models an uncaught
Python exception, and the upstream HTTP/generator services are passed in as
explicit oracle functions so that call traces can be stated and proved.
-/

namespace APGrader

/-- Whitespace characters recognised by Python's `str.strip()` (ASCII part;
the course titles handled by the router are ASCII). -/
def pyIsWs (c : Char) : Bool :=
  c == ' ' || c == '\t' || c == '\n' || c == '\r' || c == '\x0b' || c == '\x0c'

/-- Model of Python `str.strip()` (no arguments): drop leading and trailing
whitespace. -/
def pyStrip (s : String) : String :=
  ⟨((s.data.dropWhile pyIsWs).reverse.dropWhile pyIsWs).reverse⟩

/-- Model of Python `str.lower()` (ASCII case folding, which covers the
course names the router compares). -/
def pyLower (s : String) : String :=
  ⟨s.data.map Char.toLower⟩

/-- Embeds `normalize_course_name` (src/ap-env-plus-router.py lines 326-334):
strip surrounding whitespace, lowercase, and drop a leading "ap " prefix. -/
def normalize_course_name (course_name : String) : String :=
  let normalized := pyLower (pyStrip course_name)
  if "ap ".data.isPrefixOf normalized.data then ⟨normalized.data.drop 3⟩
  else normalized

/-- The four grading strategies the router dispatches to. -/
inductive Strategy where
  | twoStage
  | language
  | literature
  | general
deriving DecidableEq

/-- Embeds the dispatch chain of `grade_frq`
(src/ap-env-plus-router.py lines 1084, 1115, 1153, 1191): the normalized
classified course name is compared for equality against the three special
subjects, and everything else falls through to the general strategy. -/
def route (normalized_course : String) : Strategy :=
  if normalized_course = "environmental science" then .twoStage
  else if normalized_course = "language" then .language
  else if normalized_course = "literature" then .literature
  else .general

/-- Parsed JSON documents, as produced by Python's `json.loads`.
JSON numbers are restricted to integers: every numeric field the two
programs read (row scores, totals, fact-check scores, point counts) is an
integer in the upstream contracts. -/
inductive JVal where
  | null
  | bool (b : Bool)
  | num (n : Int)
  | str (s : String)
  | arr (elems : List JVal)
  | obj (fields : List (String × JVal))

/-- Key lookup in a parsed JSON object. `json.loads` builds a Python dict in
which a duplicated key keeps its last occurrence, so the lookup returns the
last binding of the key. -/
def pyLookup : List (String × JVal) → String → Option JVal
  | [], _ => none
  | (k, v) :: rest, key =>
    match pyLookup rest key with
    | some w => some w
    | none => if k = key then some v else none

/-- Model of Python `dict.get(key, default)` applied to a value that is known
to be a dict. -/
def pyGetD (fields : List (String × JVal)) (key : String) (d : JVal) : JVal :=
  (pyLookup fields key).getD d

/-- Model of the attribute access `value.get(key, default)`: raises
(`.error`) with an `AttributeError` when the receiver is not a dict, exactly
as CPython does for lists, strings, numbers and `None`. -/
def pyGetAttrD (v : JVal) (key : String) (d : JVal) : Except String JVal :=
  match v with
  | .obj fields => .ok (pyGetD fields key d)
  | _ => .error ("AttributeError: no attribute get (key " ++ key ++ ")")

/-- Model of Python `+` on JSON-derived values: numbers add, strings and
lists concatenate, booleans coerce to 0/1, anything else is a `TypeError`. -/
def pyAdd : JVal → JVal → Except String JVal
  | .num a, .num b => .ok (.num (a + b))
  | .num a, .bool b => .ok (.num (a + (if b then 1 else 0)))
  | .bool a, .num b => .ok (.num ((if a then 1 else 0) + b))
  | .bool a, .bool b => .ok (.num ((if a then 1 else 0) + (if b then 1 else 0)))
  | .str a, .str b => .ok (.str (a ++ b))
  | .arr a, .arr b => .ok (.arr (a ++ b))
  | _, _ => .error "TypeError: unsupported operand types for +"

/-- Model of the Python comparison `x == 0` on a JSON-derived value
(`False == 0` is true in Python; every non-numeric value compares unequal). -/
def pyEqZero : JVal → Bool
  | .num n => n == 0
  | .bool b => !b
  | _ => false

/-- Model of Python truthiness on JSON-derived values. -/
def pyTruthy : JVal → Bool
  | .null => false
  | .bool b => b
  | .num n => n != 0
  | .str s => !s.isEmpty
  | .arr xs => !xs.isEmpty
  | .obj fields => !fields.isEmpty

/-- Model of Python `float()` restricted to integral values (the model has
no floating-point numbers; all scores in scope are integers). Numeric
strings of digits convert like Python does; non-numeric values raise. -/
def pyFloat (v : JVal) : Except String Int :=
  match v with
  | .num n => .ok n
  | .bool b => .ok (if b then 1 else 0)
  | .str s =>
    let t := pyStrip s
    let (sgn, ds) : Int × List Char :=
      match t.data with
      | '-' :: rest => (-1, rest)
      | '+' :: rest => (1, rest)
      | cs => (1, cs)
    if !ds.isEmpty && ds.all Char.isDigit then
      .ok (sgn * (ds.foldl (fun a c => a * 10 + ((c.toNat : Int) - 48)) 0))
    else .error "ValueError: could not convert string to float"
  | _ => .error "TypeError: float() argument must be a string or a number"

mutual

/-- Model of Python `repr()` on JSON-derived values (used when a container
value is interpolated into an f-string). String escaping inside `repr` is
elided; no claim depends on it. -/
def pyRepr : JVal → String
  | .null => "None"
  | .bool true => "True"
  | .bool false => "False"
  | .num n => toString n
  | .str s => "\x27" ++ (s ++ "\x27")
  | .arr xs => "[" ++ (pyReprElems xs ++ "]")
  | .obj fields => "\x7b" ++ (pyReprFields fields ++ "\x7d")

/-- Comma-joined `repr` of list elements. -/
def pyReprElems : List JVal → String
  | [] => ""
  | [x] => pyRepr x
  | x :: xs => pyRepr x ++ (", " ++ pyReprElems xs)

/-- Comma-joined `repr` of dict items. -/
def pyReprFields : List (String × JVal) → String
  | [] => ""
  | [(k, v)] => "\x27" ++ (k ++ ("\x27: " ++ pyRepr v))
  | (k, v) :: kvs =>
    "\x27" ++ (k ++ ("\x27: " ++ (pyRepr v ++ (", " ++ pyReprFields kvs))))

end

/-- Model of Python `str()` on JSON-derived values, as used when a value is
substituted into an f-string slot. -/
def pyStr : JVal → String
  | .str s => s
  | .arr xs => "[" ++ (pyReprElems xs ++ "]")
  | .obj fields => "\x7b" ++ (pyReprFields fields ++ "\x7d")
  | v => pyRepr v

/-- JSON whitespace skipping, as accepted by Python `json.loads`. -/
def skipWs : List Char → List Char
  | c :: cs =>
    if c == ' ' || c == '\t' || c == '\n' || c == '\r' then skipWs cs
    else c :: cs
  | [] => []

/-- Value of a hexadecimal digit, for `\uXXXX` escapes. -/
def hexVal? (c : Char) : Option Nat :=
  if '0' ≤ c ∧ c ≤ '9' then some (c.toNat - 48)
  else if 'a' ≤ c ∧ c ≤ 'f' then some (c.toNat - 87)
  else if 'A' ≤ c ∧ c ≤ 'F' then some (c.toNat - 55)
  else none

/-- Numeric value of a run of decimal digits. -/
def digitsToNat (ds : List Char) : Nat :=
  ds.foldl (fun a c => a * 10 + (c.toNat - 48)) 0

/-- Unescaped JSON number literal: an optional sign followed by digits.
Fractional and exponent forms are outside this model (see `JVal`); the
parser rejects them rather than misparsing them. -/
def parseNum (cs : List Char) : Option (Int × List Char) :=
  let ds := cs.takeWhile Char.isDigit
  let rest := cs.dropWhile Char.isDigit
  if ds.isEmpty then none
  else
    match rest with
    | '.' :: _ => none
    | 'e' :: _ => none
    | 'E' :: _ => none
    | _ => some ((digitsToNat ds : Int), rest)

/-- Body of a JSON string literal (the opening quote already consumed),
with the escape sequences `json.loads` accepts. Surrogate-pair `\u` escapes
are combined only per code unit; no input in scope uses them. -/
def parseStrBody : Nat → List Char → Option (String × List Char)
  | 0, _ => none
  | fuel + 1, cs =>
    match cs with
    | [] => none
    | '"' :: rest => some ("", rest)
    | '\\' :: 'u' :: h1 :: h2 :: h3 :: h4 :: rest => do
      let a ← hexVal? h1
      let b ← hexVal? h2
      let c ← hexVal? h3
      let d ← hexVal? h4
      let (s, r) ← parseStrBody fuel rest
      pure (⟨Char.ofNat (((a * 16 + b) * 16 + c) * 16 + d) :: s.data⟩, r)
    | '\\' :: e :: rest =>
      let esc : Option Char :=
        if e == '"' then some '"'
        else if e == '\\' then some '\\'
        else if e == '/' then some '/'
        else if e == 'n' then some '\n'
        else if e == 't' then some '\t'
        else if e == 'r' then some '\r'
        else if e == 'b' then some '\x08'
        else if e == 'f' then some '\x0c'
        else none
      match esc with
      | some c => (parseStrBody fuel rest).map fun (s, r) => (⟨c :: s.data⟩, r)
      | none => none
    | c :: rest =>
      if c == '\\' then none
      else (parseStrBody fuel rest).map fun (s, r) => (⟨c :: s.data⟩, r)

mutual

/-- Recursive-descent JSON value parser modelling Python `json.loads`
(fuelled to make termination structural; `json_loads` supplies ample fuel). -/
def parseVal : Nat → List Char → Option (JVal × List Char)
  | 0, _ => none
  | fuel + 1, cs =>
    match skipWs cs with
    | 'n' :: 'u' :: 'l' :: 'l' :: rest => some (.null, rest)
    | 't' :: 'r' :: 'u' :: 'e' :: rest => some (.bool true, rest)
    | 'f' :: 'a' :: 'l' :: 's' :: 'e' :: rest => some (.bool false, rest)
    | '"' :: rest => (parseStrBody (fuel + 1) rest).map fun (s, r) => (.str s, r)
    | '[' :: rest =>
      match skipWs rest with
      | ']' :: r2 => some (.arr [], r2)
      | r2 => (parseElems fuel r2).map fun (xs, r) => (.arr xs, r)
    | '{' :: rest =>
      match skipWs rest with
      | '}' :: r2 => some (.obj [], r2)
      | r2 => (parseFields fuel r2).map fun (kvs, r) => (.obj kvs, r)
    | '-' :: rest => (parseNum rest).map fun (n, r) => (.num (-n), r)
    | cs2 => (parseNum cs2).map fun (n, r) => (.num n, r)

/-- Comma-separated JSON array elements up to the closing bracket. -/
def parseElems : Nat → List Char → Option (List JVal × List Char)
  | 0, _ => none
  | fuel + 1, cs => do
    let (v, r1) ← parseVal fuel cs
    match skipWs r1 with
    | ',' :: r2 => (parseElems fuel r2).map fun (xs, r) => (v :: xs, r)
    | ']' :: r2 => some ([v], r2)
    | _ => none

/-- Comma-separated JSON object members up to the closing brace. -/
def parseFields : Nat → List Char → Option (List (String × JVal) × List Char)
  | 0, _ => none
  | fuel + 1, cs =>
    match skipWs cs with
    | '"' :: r0 => do
      let (k, r1) ← parseStrBody (fuel + 1) r0
      match skipWs r1 with
      | ':' :: r2 => do
        let (v, r3) ← parseVal fuel r2
        match skipWs r3 with
        | ',' :: r4 => (parseFields fuel r4).map fun (kvs, r) => ((k, v) :: kvs, r)
        | '}' :: r4 => some ([(k, v)], r4)
        | _ => none
      | _ => none
    | _ => none

end

/-- Model of Python `json.loads`: parse one JSON document and reject
trailing garbage. Returns `none` where Python raises `JSONDecodeError`. -/
def json_loads (s : String) : Option JVal :=
  match parseVal (s.length * 4 + 16) s.data with
  | some (v, rest) => if (skipWs rest).isEmpty then some v else none
  | none => none

/-- Escape one character for a JSON string literal the way Python
`json.dumps` does with its default `ensure_ascii=True` (non-ASCII
characters beyond the basic plane are not produced by the programs). -/
def dumpsEscapeChar (c : Char) : String :=
  if c == '"' then "\\\""
  else if c == '\\' then "\\\\"
  else if c == '\n' then "\\n"
  else if c == '\t' then "\\t"
  else if c == '\r' then "\\r"
  else if c.toNat < 32 || c.toNat > 126 then
    let hd (n : Nat) : Char :=
      if n < 10 then Char.ofNat (48 + n) else Char.ofNat (87 + n - 10)
    "\\u" ++ ⟨[hd (c.toNat / 4096 % 16), hd (c.toNat / 256 % 16),
               hd (c.toNat / 16 % 16), hd (c.toNat % 16)]⟩
  else ⟨[c]⟩

/-- JSON string literal serialisation for `json_dumps`. -/
def dumpsString (s : String) : String :=
  "\"" ++ ((s.data.map dumpsEscapeChar).foldl (· ++ ·) "" ++ "\"")

mutual

/-- Model of Python `json.dumps` with its default separators, used by
`grade_frq` to re-serialise upstream JSON responses. -/
def json_dumps : JVal → String
  | .null => "null"
  | .bool true => "true"
  | .bool false => "false"
  | .num n => toString n
  | .str s => dumpsString s
  | .arr xs => "[" ++ (dumpsElems xs ++ "]")
  | .obj fields => "\x7b" ++ (dumpsFields fields ++ "\x7d")

/-- Comma-joined serialisation of array elements. -/
def dumpsElems : List JVal → String
  | [] => ""
  | [x] => json_dumps x
  | x :: xs => json_dumps x ++ (", " ++ dumpsElems xs)

/-- Comma-joined serialisation of object members. -/
def dumpsFields : List (String × JVal) → String
  | [] => ""
  | [(k, v)] => dumpsString k ++ (": " ++ json_dumps v)
  | (k, v) :: kvs =>
    dumpsString k ++ (": " ++ (json_dumps v ++ (", " ++ dumpsFields kvs)))

end

/-- First match of the regex `({[\s\S]*})` used by `classify_frq_course`
(src/ap-env-plus-router.py line 307): with the greedy quantifier the regex
engine matches from the first opening brace to the last closing brace of the
text, provided that closing brace lies after the opening one. -/
def regex_brace_span (s : String) : Option String :=
  let fromBrace := s.data.dropWhile (· ≠ '{')
  let kept := (fromBrace.reverse.dropWhile (· ≠ '}')).reverse
  if kept.isEmpty then none else some ⟨kept⟩

/-- Characters matched by `\s` in Python regexes over ASCII text. -/
def pyIsSpaceRe (c : Char) : Bool :=
  c == ' ' || c == '\t' || c == '\n' || c == '\r' || c == '\x0b' || c == '\x0c'

/-- Generic left-to-right regex search: try the positional matcher `p` at
every suffix and return the first success, as `re.search` does. -/
def scanFor {α : Type} (p : List Char → Option α) : List Char → Option α
  | [] => p []
  | c :: cs =>
    match p (c :: cs) with
    | some r => some r
    | none => scanFor p cs

/-- Positional matcher for the regex
`"course_of_the_frq"\s*:\s*"([^"]+)"` of `classify_frq_course`
(src/ap-env-plus-router.py line 318), returning the captured group: the
literal quoted key, optional whitespace, a colon, optional whitespace, then
a quoted non-empty run of non-quote characters. -/
def courseKeyAt (cs : List Char) : Option String :=
  let key := "\"course_of_the_frq\"".data
  if key.isPrefixOf cs then
    let r1 := (cs.drop key.length).dropWhile pyIsSpaceRe
    match r1 with
    | ':' :: r2 =>
      match r2.dropWhile pyIsSpaceRe with
      | '"' :: r3 =>
        let v := r3.takeWhile (· ≠ '"')
        match r3.dropWhile (· ≠ '"') with
        | '"' :: _ => if v.isEmpty then none else some ⟨v⟩
        | _ => none
      | _ => none
    | _ => none
  else none

/-- Embeds the response-processing chain of `classify_frq_course`
(src/ap-env-plus-router.py lines 301-324). The upstream call itself is
abstracted into the `response_text` argument; the chain is
1. parse the whole text as JSON and `.get("course_of_the_frq", "")`,
2. on `JSONDecodeError`, extract the `({[\s\S]*})` span, parse it, `.get`,
3. on failure, search the textual `"course_of_the_frq": "<value>"` pattern,
4. fall back to the caller-supplied `course_title`.
`.get` on a JSON value that is not an object raises `AttributeError`
(modelled by `.error`), which only step 1 can reach: a `{...}` span that
parses successfully is necessarily an object. -/
def classify_frq_course_extract (response_text course_title : String) :
    Except String JVal :=
  let step3 : JVal :=
    match scanFor courseKeyAt response_text.data with
    | some v => .str v
    | none => .str course_title
  match json_loads response_text with
  | some (.obj kvs) => .ok (pyGetD kvs "course_of_the_frq" (.str ""))
  | some _ => .error "AttributeError: no attribute get (key course_of_the_frq)"
  | none =>
    match regex_brace_span response_text with
    | some span =>
      match json_loads span with
      | some (.obj kvs) => .ok (pyGetD kvs "course_of_the_frq" (.str ""))
      | some _ =>
        .error "AttributeError: no attribute get (key course_of_the_frq)"
      | none => .ok step3
    | none => .ok step3

/-- Positional matcher for `<label>(\d+)/(\d+)`: the literal label followed
by a maximal non-empty digit run, a slash, and another non-empty digit run.
Backtracking inside `(\d+)/` cannot help (every backtrack position still
faces a digit), so the greedy semantics reduce to maximal runs. Returns the
two captured digit strings. -/
def labeledScoreAt (label : List Char) (cs : List Char) :
    Option (List Char × List Char) :=
  if label.isPrefixOf cs then
    let r0 := cs.drop label.length
    let d1 := r0.takeWhile Char.isDigit
    match r0.dropWhile Char.isDigit with
    | '/' :: r1 =>
      let d2 := r1.takeWhile Char.isDigit
      if d1.isEmpty || d2.isEmpty then none else some (d1, d2)
    | _ => none
  else none

/-- First match of `Final Score: (\d+)/(\d+)` in a text, as captured digit
strings (src/ap-env-plus-router.py lines 344 and 372). -/
def findFinalScoreStr (s : String) : Option (List Char × List Char) :=
  scanFor (labeledScoreAt "Final Score: ".data) s.data

/-- First match of `<score_estimate>[\s\S]*?Total Score: (\d+)/(\d+)`
(src/ap-env-plus-router.py line 351): an occurrence of the opening tag
followed, lazily, by the first full `Total Score: d+/d+` match after it.
`re.search` tries start positions left to right, so a tag occurrence with no
score after it lets a later tag occurrence match instead. -/
def findScoreEstimateStr (s : String) : Option (List Char × List Char) :=
  scanFor
    (fun cs =>
      let tag := "<score_estimate>".data
      if tag.isPrefixOf cs then
        scanFor (labeledScoreAt "Total Score: ".data) (cs.drop tag.length)
      else none)
    s.data

/-- Numeric form of `findFinalScoreStr` (Python converts the captured digit
groups with `float`, exact on digit strings). -/
def findFinalScore (s : String) : Option (Nat × Nat) :=
  (findFinalScoreStr s).map fun (a, b) => (digitsToNat a, digitsToNat b)

/-- Numeric form of `findScoreEstimateStr`. -/
def findScoreEstimate (s : String) : Option (Nat × Nat) :=
  (findScoreEstimateStr s).map fun (a, b) => (digitsToNat a, digitsToNat b)

/-- Embeds `extract_score_from_env_science`
(src/ap-env-plus-router.py lines 336-358): first the `Final Score:` pattern
in the feedback text, then the `Total Score:` pattern after a
`<score_estimate>` tag in the scoring text, else the `(0, 0)` sentinel. -/
def extract_score_from_env_science (scoring_response feedback_response : String) :
    Nat × Nat :=
  match findFinalScore feedback_response with
  | some (earned, total) => (earned, total)
  | none =>
    match findScoreEstimate scoring_response with
    | some (earned, total) => (earned, total)
    | none => (0, 0)

/-- Index of the first position where `pat` occurs in `cs`, if any. -/
def findIdxOfPat (pat : List Char) : List Char → Option Nat
  | [] => if pat.isEmpty then some 0 else none
  | c :: cs =>
    if pat.isPrefixOf (c :: cs) then some 0
    else (findIdxOfPat pat cs).map (· + 1)

/-- First match of the regex `marker.*?(?=stop|$)` under `re.DOTALL`, as
used for the section slices of `create_environmental_science_html`
(src/ap-env-plus-router.py lines 381-390): the slice runs from the first
occurrence of `marker` to the earliest position at or after its end where
`stop` begins or `$` matches (`$` matches at the end of the text, and also
just before a final newline). Returns the empty string when the marker is
absent. -/
def dotallLazySection (marker stop : String) (s : String) : String :=
  match findIdxOfPat marker.data s.data with
  | none => ""
  | some i =>
    let len := s.data.length
    let markerEnd := i + marker.data.length
    let dollar :=
      if s.data.getLast? = some '\n' ∧ markerEnd ≤ len - 1 then len - 1
      else len
    let stopAt :=
      match findIdxOfPat stop.data (s.data.drop markerEnd) with
      | some j => markerEnd + j
      | none => dollar
    ⟨(s.data.take (min stopAt dollar)).drop i⟩

/-- Embeds `create_classification_prompt` (src/ap-env-plus-router.py
lines 54-95): the classification instruction with the course title and
question embedded verbatim. -/
def create_classification_prompt (course_title question : String) : String :=
"####
You are an expert classifier for AP (Advanced Placement) Free Response Questions (FRQs). Your task is to determine the specific AP course that this FRQ belongs to based on the provided course title and the FRQ question content.

The provided course title is:
<course_title>
" ++ (course_title ++ ("
</course_title>

The FRQ question is:
<question>
" ++ (question ++ ("
</question>

Instructions:
1. First, examine the provided course title. If it clearly matches one of the acceptable AP course names listed below, use that as your classification.
2. If the course title is unclear, vague, or missing, analyze the FRQ question content to determine which AP course it most likely belongs to.
3. Consider the vocabulary, concepts, task verbs, and subject matter in the FRQ question.
4. Output your classification in the specified JSON format.

Acceptable AP course names:
- AP United States History
- AP World History
- AP Human Geography
- AP United States Government
- AP Microeconomics
- AP Environmental Science
- AP Biology
- AP Chemistry
- AP Physics
- AP Literature
- AP Language

Your response must be in the following JSON format and nothing else:
\x7b
  \"course_of_the_frq\": \"[The exact AP course name from the list above]\"
\x7d
"))))

/-- Embeds `create_claude_prompt` (src/ap-env-plus-router.py lines 97-159):
the stage-1 strict evaluation prompt with question, image data, rubric and
student answer embedded verbatim. -/
def create_claude_prompt (question student_answer scoring_rubric image_data : String) : String :=
"####
You are an expert evaluator for AP Environmental Science Free Response Questions (FRQs). Your task is to evaluate a student\x27s response to an AP Environmental Science FRQ based on a question-specific rubric. You must be very strict in your scoring, awarding points only when the student\x27s response closely matches the rubric criteria.
Here is the AP Environmental Science FRQ question:
<question>
" ++ (question ++ ("
</question>
Associated image or diagram (if provided):
<image>
" ++ (image_data ++ ("
</image>
Here is the question-specific scoring rubric:
<rubric>
" ++ (scoring_rubric ++ ("
</rubric>
Here is the student\x27s response:
<response>
" ++ (student_answer ++ ("
</response>
Instructions:
1. Carefully read the question, rubric, and student response.
2. Conduct a detailed analysis of the response. Wrap your detailed analysis inside <response_breakdown> tags. In your analysis:
a. Identify and list all task verbs from the question, numbering them.
b. Break down the rubric into individual criteria.
c. For each rubric criterion:
- Quote the exact wording from the rubric.
- Paraphrase the criterion in simpler terms.
- Consider and list alternative phrasings or synonyms that could be accepted.
- Quote relevant parts of the student\x27s response.
- Analyze how well the student\x27s response meets the criterion.
- Explicitly state whether the criterion is met or not met, and why.
-No partial credit. Only the first response is considered if multiple answers are given.
- Provide a preliminary point estimate for the criterion.
- Note points earned or missed.
d. Note strengths and weaknesses of the response.
e. Perform any necessary calculations or data interpretations.
3. After your analysis, provide your evaluation using the following structure:
<evaluation>
<task_verb_analysis>
[Explain how well the response aligns with each identified task verb.]
</task_verb_analysis>
<earned_points_breakdown>
[Provide a detailed justification for each point earned, ensuring strict alignment with the rubric.]
</earned_points_breakdown>
<missed_points_explanation>
[Identify which parts did not earn points and provide specific reasons, referencing the rubric.]
</missed_points_explanation>
<improvement_suggestions>
[Provide clear, constructive feedback on how to improve the response to better match the rubric criteria.]
</improvement_suggestions>
<score_estimate>
[Provide an AP-style score estimate based on the rubric.]
</score_estimate>
</evaluation>
Remember to be extremely thorough and critical in your evaluation. Only award points when the student\x27s response very closely matches the rubric criteria or uses appropriate synonyms that convey the same meaning. Ensure that your assessment is fair, consistent, and aligns strictly with AP\x27s expectations for depth, accuracy, and scientific reasoning.
"))))))))

/-- Embeds `create_openai_prompt` (src/ap-env-plus-router.py lines
161-227): the stage-2 feedback-rewriting prompt with the stage-1 evaluation
text embedded verbatim in its single slot. -/
def create_openai_prompt (evaluation_data : String) : String :=
"####
Task: Generate structured FRQ feedback for an AP Environmental Science response based on the evaluation data provided.

\x7bEvaluation data\x7d
" ++ (evaluation_data ++ ("

Instructions:
Maintain the exact structure below, including headings, sections, and formatting.
Use the earned points breakdown and missed points explanation to populate the \"What You Did Well\" and \"How to Improve\" sections.
The final score should match the calculated earned points.
Ensure the feedback does not give away the correct answer.
Ensure feedback is detailed, actionable, and aligned with AP Science reasoning standards.
Use a motivational and constructive tone while pointing out errors.
You have to use the provided template and not a word outside of the template.
<template>
Final Score: [Earned Points]/[Total Points]
AP Score Estimate: [Estimated AP Score]
(Your score suggests an overall AP score in the [1-5] range.)

⭐ To pass (score 3+), aim for 50% or higher on FRQs.
⭐ For a 4-5 (college credit level), target 70%+ per FRQ.

✅ What You Did Well ([Earned Points]/[Total Points])
📝 Correct Answers: [List of correct parts]
✔ [Key Strength #1]: [Brief positive feedback based on earned points]
✔ [Key Strength #2]: [Another strong point highlighting a well-done aspect]
✔ [Key Strength #3]: [Additional positive element]

⚠️ How to Improve ([Missed Points]/[Total Points])
🔹 Missed Parts:
[a-ii], b-i]...: ❌ 

🔹 (a-ii) [Missed Concept]
You answered \"[Student Response]\", but it should reflect \"[Correct Concept]\".
💡 Think Like a Scientist: [Guiding question for reconsideration].
📝 Tip: [Strategy to avoid this mistake in the future].

🔹 (b-i) [Missed Concept]
Your explanation of [Concept] was [issue: vague/incomplete/inaccurate].
✅ Next Steps: Focus on [specific improvement area] using [scientific reasoning/framework].

🔹 Next Steps to Improve Your FRQ Score

📌 Double-check numerical data before submitting answers to ensure accuracy.
📌 Use specific scientific terminology—avoid vague descriptions and provide precise characteristics.
📌 Practice structuring explanations using reasoning prompts: \"Because ____, this leads to ____.\"
📌 Review key science concepts related to [list of key concepts based on errors] before attempting similar FRQs.
📌 Try rewriting sections (A), (B), and (C) using the strategies above and compare your answers—where do you see improvement

🚀 Keep practicing! Your reasoning skills are improving, and your score will too! 🎉
</template>
You have to customize the template based on the question, rubric and the answer. You have to follow these steps to customize the template.
📌 How to Customize This Template:
Adjust [Earned Points], [Missed Points], [Total Points] based on the evaluation.
Scale 6-point FRQs to a 10-point AP Score Estimate (e.g., 4/6 → 7/10).
Ensure each part is tagged (e.g., a-i, b-ii) to clarify correct/missed responses.
Tailor \"Next Steps\" and \" Next Steps to Improve Your FRQ Score\"  based on actual mistakes, not generic advice.
You have to use the provided template and not a word outside of the template.
"))

/-- First match of the regex `AP Score Estimate: (\d+)` as a captured digit
string (src/ap-env-plus-router.py line 377). -/
def findApScoreStr (s : String) : Option (List Char) :=
  scanFor
    (fun cs =>
      let label := "AP Score Estimate: ".data
      if label.isPrefixOf cs then
        let d := (cs.drop label.length).takeWhile Char.isDigit
        if d.isEmpty then none else some d
      else none)
    s.data

/-- Embeds `create_environmental_science_html`
(src/ap-env-plus-router.py lines 360-630): extracts the score pair, the AP
score estimate and the three feedback sections from the stage-2 feedback
text (substituting "?" or the empty string when a pattern is absent) and
interpolates them into the fixed report markup. -/
def create_environmental_science_html (scoring_response feedback_response : String) : String :=
  let earned_points : String :=
    match findFinalScoreStr feedback_response with
    | some (e, _) => ⟨e⟩
    | none => "?"
  let total_points : String :=
    match findFinalScoreStr feedback_response with
    | some (_, t) => ⟨t⟩
    | none => "?"
  let ap_score : String :=
    match findApScoreStr feedback_response with
    | some d => ⟨d⟩
    | none => "?"
  let did_well_section := dotallLazySection "✅ What You Did Well" "⚠️" feedback_response
  let improve_section := dotallLazySection "⚠️ How to Improve" "🚀" feedback_response
  let next_steps_section := dotallLazySection "🔹 Next Steps to Improve Your FRQ Score" "🚀" feedback_response
  "
    <style>
    /* Global styles */
    .ap-grader-container \x7b
        font-family: \x27Inter\x27, \x27Segoe UI\x27, Tahoma, Geneva, Verdana, sans-serif;
        max-width: 1200px;
        margin: 0 auto;
        padding: 20px;
        background: linear-gradient(135deg, #faf8f5 0%, #fff9f5 100%);
        border-radius: 12px;
        box-shadow: 0 4px 6px rgba(0, 0, 0, 0.1);
    \x7d
    
    /* Header style */
    .ap-header \x7b
        background: linear-gradient(135deg, #FFE5E5 0%, #FFF0F0 100%);
        border-radius: 8px;
        padding: 20px;
        margin-bottom: 20px;
        text-align: center;
        box-shadow: 0 2px 4px rgba(0, 0, 0, 0.05);
    \x7d
    
    .ap-title \x7b
        font-size: 28px;
        font-weight: 700;
        margin: 0;
        color: #2D3748;
        background: linear-gradient(120deg, #FF9A9E 0%, #FAD0C4 50%, #FFD1FF 100%);
        -webkit-background-clip: text;
        -webkit-text-fill-color: transparent;
    \x7d
    
    .ap-score \x7b
        display: flex;
        justify-content: space-around;
        margin-top: 25px;
    \x7d
    
    .ap-score-item \x7b
        text-align: center;
    \x7d
    
    .ap-score-label \x7b
        font-size: 16px;
        color: #4A5568;
        margin-bottom: 8px;
    \x7d
    
    .ap-score-value \x7b
        font-size: 24px;
        font-weight: 700;
        color: #2D3748;
    \x7d
    
    /* Card style */
    .ap-card \x7b
        background: #fff;
        border-radius: 8px;
        margin-bottom: 20px;
        padding: 20px;
        box-shadow: 0 2px 4px rgba(0, 0, 0, 0.05);
        transition: transform 0.3s ease;
    \x7d
    
    .ap-card:hover \x7b
        transform: translateY(-3px);
        box-shadow: 0 4px 8px rgba(0, 0, 0, 0.1);
    \x7d
    
    .ap-card-title \x7b
        font-size: 20px;
        font-weight: 600;
        margin-top: 0;
        margin-bottom: 15px;
        color: #2D3748;
        padding-bottom: 10px;
        border-bottom: 2px solid rgba(255, 154, 158, 0.3);
    \x7d
    
    .ap-content \x7b
        color: #4A5568;
        line-height: 1.6;
    \x7d
    
    /* Tab styles */
    .ap-tabs \x7b
        display: flex;
        margin-bottom: 20px;
    \x7d
    
    .ap-tab \x7b
        padding: 10px 20px;
        cursor: pointer;
        border-bottom: 2px solid #ddd;
        flex: 1;
        text-align: center;
        transition: all 0.3s ease;
    \x7d
    
    .ap-tab.active \x7b
        border-bottom: 2px solid #FF9A9E;
        color: #FF9A9E;
        font-weight: 500;
    \x7d
    
    .ap-tab-content \x7b
        padding: 20px 0;
    \x7d
    
    /* Highlights */
    .ap-highlight \x7b
        background: rgba(255, 229, 100, 0.2);
        padding: 2px 4px;
        border-radius: 4px;
    \x7d
    
    /* Icons and badges */
    .ap-icon \x7b
        vertical-align: middle;
        margin-right: 6px;
    \x7d
    
    .ap-badge \x7b
        display: inline-block;
        padding: 3px 8px;
        border-radius: 12px;
        font-size: 14px;
        font-weight: 500;
        margin-right: 8px;
    \x7d
    
    .ap-badge-success \x7b
        background: rgba(72, 187, 120, 0.1);
        color: #48BB78;
    \x7d
    
    .ap-badge-warning \x7b
        background: rgba(237, 137, 54, 0.1);
        color: #ED8936;
    \x7d
    
    .ap-section-content \x7b
        white-space: pre-line;
    \x7d
    </style>
    
    <div class=\"ap-grader-container\">
        <div class=\"ap-header\">
            <h1 class=\"ap-title\">AP Environmental Science FRQ Evaluation</h1>
            <div class=\"ap-score\">
                <div class=\"ap-score-item\">
                    <div class=\"ap-score-label\">Final Score</div>
                    <div class=\"ap-score-value\">" ++ (earned_points ++ ("/" ++ (total_points ++ ("</div>
                </div>
                <div class=\"ap-score-item\">
                    <div class=\"ap-score-label\">AP Score Estimate</div>
                    <div class=\"ap-score-value\">" ++ (ap_score ++ ("/5" ++ ("</div>
                </div>
            </div>
        </div>
        
        <div class=\"ap-card\">
            <h2 class=\"ap-card-title\">
                <span class=\"ap-icon\">✅</span>What You Did Well
            </h2>
            <div class=\"ap-content ap-section-content\">
                " ++ (did_well_section ++ ("
            </div>
        </div>
        
        <div class=\"ap-card\">
            <h2 class=\"ap-card-title\">
                <span class=\"ap-icon\">⚠️</span>How to Improve
            </h2>
            <div class=\"ap-content ap-section-content\">
                " ++ (improve_section ++ ("
            </div>
        </div>
        
        <div class=\"ap-card\">
            <h2 class=\"ap-card-title\">
                <span class=\"ap-icon\">📋</span>Next Steps
            </h2>
            <div class=\"ap-content ap-section-content\">
                " ++ (next_steps_section ++ ("
                
                <div style=\"margin-top: 20px; text-align: center; font-weight: 500;\">
                    🚀 Keep practicing! Your reasoning skills are improving, and your score will too! 🎉
                </div>
            </div>
        </div>
        
        <div class=\"ap-tabs\">
            <div class=\"ap-tab active\" onclick=\"showTab(\x27summary\x27)\">Summary</div>
            <div class=\"ap-tab\" onclick=\"showTab(\x27detailed\x27)\">Detailed Analysis</div>
        </div>
        
        <div id=\"summary-tab\" class=\"ap-tab-content\" style=\"display: block;\">
            <div class=\"ap-card\">
                <h2 class=\"ap-card-title\">Score Breakdown</h2>
                <div class=\"ap-content\">
                    <p>The final score of <strong>" ++ (earned_points ++ ("/" ++ (total_points ++ ("</strong> suggests an overall AP score in the <strong>" ++ (ap_score ++ ("</strong> range.</p>
                    <p>⭐ To pass (score 3+), aim for 50% or higher on FRQs.<br>
                    ⭐ For a 4-5 (college credit level), target 70%+ per FRQ.</p>
                </div>
            </div>
        </div>
        
        <div id=\"detailed-tab\" class=\"ap-tab-content\" style=\"display: none;\">
            <div class=\"ap-card\">
                <h2 class=\"ap-card-title\">Detailed Evaluation</h2>
                <div class=\"ap-content\">
                    <pre style=\"white-space: pre-wrap; font-family: inherit;\">" ++ (scoring_response ++ ("</pre>
                </div>
            </div>
        </div>
    </div>
    
    <script>
    function showTab(tabName) \x7b
        const tabs = document.querySelectorAll(\x27.ap-tab\x27);
        const tabContents = document.querySelectorAll(\x27.ap-tab-content\x27);
        
        tabs.forEach(tab => tab.classList.remove(\x27active\x27));
        tabContents.forEach(content => content.style.display = \x27none\x27);
        
        if (tabName === \x27summary\x27) \x7b
            document.querySelector(\x27.ap-tab:nth-child(1)\x27).classList.add(\x27active\x27);
            document.getElementById(\x27summary-tab\x27).style.display = \x27block\x27;
        \x7d else \x7b
            document.querySelector(\x27.ap-tab:nth-child(2)\x27).classList.add(\x27active\x27);
            document.getElementById(\x27detailed-tab\x27).style.display = \x27block\x27;
        \x7d
    \x7d
    </script>
    ")))))))))))))))))))))

/-- The fact-check failure block of `create_language_literature_html`
(src/ap-env-plus-router.py lines 673-686): reasoning text, penalized total
and unpenalized total interpolated into the warning card. -/
def factCheckHtml (reasoning penalized_total_score total_score : String) : String :=
  "
            <div class=\"section-container\" style=\"background: #fff7f7;\">
                <h4 style=\"color: #B83232;\">Fact Check Failed</h4>
                <p style=\"color: #4A5568;\">
                    <strong>Reasoning:</strong> " ++ (reasoning ++ ("
                </p>
                <p style=\"color: #2D3748;\">
                    <strong>Your penalized total score is:</strong> " ++ (penalized_total_score ++ ("
                </p>
                <p style=\"color: #2D3748;\">
                    <strong>If you hadn\x27t made this error, here\x27s how you would have scored:</strong> " ++ (total_score ++ ("
                </p>
            </div>
            "))))))

/-- The main report template of `create_language_literature_html`
(src/ap-env-plus-router.py lines 691-822), with each f-string slot as a
parameter (in source order). -/
def llHtmlTpl (fact_check_html total_score overall_assessment row_a_score comm_a impr_a row_b_score comm_b impr_b row_c_score comm_c impr_c : String) : String :=
  "
        <style>
        /* Global styles */
        @import url(\x27https://fonts.googleapis.com/css2?family=Poppins:wght@300;400;500;600;700&display=swap\x27);
        @import url(\x27https://fonts.googleapis.com/css2?family=Inter:wght@400;500;600&display=swap\x27);

        body \x7b
            font-family: \x27Inter\x27, sans-serif;
            background: linear-gradient(to right, #F2FCFE, #FDFCFB) !important;
        \x7d

        /* Ensure smooth transitions for all elements */
        * \x7b
            transition: all 0.2s ease-in-out;
        \x7d

        .section-container \x7b
            background: rgba(255, 255, 255, 0.95);
            border-radius: 20px;
            padding: 2rem;
            margin: 1.5rem 0;
            box-shadow: 0 10px 30px rgba(0, 0, 0, 0.06);
            transition: transform 0.3s cubic-bezier(0.4, 0, 0.2, 1),
                        box-shadow 0.3s cubic-bezier(0.4, 0, 0.2, 1);
        \x7d

        .section-container:hover \x7b
            transform: translateY(-4px);
            box-shadow: 0 20px 40px rgba(0, 0, 0, 0.08);
        \x7d

        .result-table \x7b
            width: 100%;
            border-collapse: collapse;
            background: #fff;
            border-radius: 12px;
            overflow: hidden;
            margin-bottom: 1rem;
        \x7d

        .result-table th,
        .result-table td \x7b
            padding: 1rem;
            text-align: left;
            border-bottom: 1px solid #eee;
            vertical-align: top;
        \x7d

        .result-table th \x7b
            background-color: #f9f9f9;
            text-transform: uppercase;
            font-size: 0.85rem;
            color: #444;
        \x7d

        .result-table tr:hover \x7b
            background-color: #f6faff;
            transition: background-color 0.3s ease-in-out;
        \x7d

        .summary-row \x7b
            background-color: #FFF7E6;
            color: #333;
        \x7d

        .total-score \x7b
            background: linear-gradient(135deg, #FFF5F5 0%, #FFF0F0 100%);
            text-align: center;
            font-size: 1.5rem;
            font-weight: 700;
            color: #2D3748;
        \x7d
        </style>

        <div style=\"padding: 20px; max-width: 1200px; margin: 0 auto;\">
            " ++ (fact_check_html ++ ("
            
            <div class=\"section-container\">
                <table class=\"result-table\">
                    <tbody>
                        <tr class=\"total-score\">
                            <td colspan=\"4\" style=\"text-align: center; font-size: 1.5rem; font-weight: 700; color: #2D3748;\">
                                Total Score: " ++ (total_score ++ ("
                            </td>
                        </tr>
                        <tr class=\"summary-row\">
                            <td colspan=\"4\" style=\"text-align: left; padding: 1rem;\">
                                <div style=\"max-width: 800px; margin: 0 auto;\">
                                    <h3 style=\"color: #2D3748; margin-bottom: 0.5rem; font-size: 1.25rem;\">
                                        Overall Assessment
                                    </h3>
                                    <p style=\"line-height: 1.8; color: #4A5568;\">
                                        " ++ (overall_assessment ++ ("
                                    </p>
                                </div>
                            </td>
                        </tr>
                        <tr>
                            <th>Category</th>
                            <th>Score</th>
                            <th>Commentary</th>
                            <th>Improvements</th>
                        </tr>
                        <tr>
                            <td><strong>Thesis</strong></td>
                            <td style=\"text-align: center; font-size: 1.25rem; font-weight: 600; color: #2D3748;\">
                                " ++ (row_a_score ++ ("
                            </td>
                            <td>" ++ (comm_a ++ ("</td>
                            <td>" ++ (impr_a ++ ("</td>
                        </tr>
                        <tr>
                            <td><strong>Evidence & Commentary</strong></td>
                            <td style=\"text-align: center; font-size: 1.25rem; font-weight: 600; color: #2D3748;\">
                                " ++ (row_b_score ++ ("
                            </td>
                            <td>" ++ (comm_b ++ ("</td>
                            <td>" ++ (impr_b ++ ("</td>
                        </tr>
                        <tr>
                            <td><strong>Sophistication</strong></td>
                            <td style=\"text-align: center; font-size: 1.25rem; font-weight: 600; color: #2D3748;\">
                                " ++ (row_c_score ++ ("
                            </td>
                            <td>" ++ (comm_c ++ ("</td>
                            <td>" ++ (impr_c ++ ("</td>
                        </tr>
                    </tbody>
                </table>
            </div>
        </div>
        "))))))))))))))))))))))))

/-- The error document returned by the renderers\x27 `except` clauses
(src/ap-env-plus-router.py lines 827-832 and 1036-1041; both occurrences are
textually identical). -/
def llErrorHtml (e : String) : String :=
  "
        <div style=\"color: red; padding: 20px; text-align: center;\">
            <h2>Error generating HTML view</h2>
            <p>There was an error processing the grading results: " ++ (e ++ ("</p>
        </div>
        "))

/-- Statement part of `create_language_literature_html`
(src/ap-env-plus-router.py lines 642-824), over an already-parsed response.
The source function receives the serialized JSON string and immediately
re-parses it; since `grade_frq` always passes `json.dumps(api_response)`,
that round trip is the identity on the parsed value, and the embedding takes
the parsed value directly. A `.error` result models an exception reaching
the enclosing `try`. -/
def llBody (api_response : JVal) : Except String String := do
  match api_response with
  | .obj fields =>
    let rowA := pyGetD fields "rowA" (.obj [])
    let rowB := pyGetD fields "rowB" (.obj [])
    let rowC := pyGetD fields "rowC" (.obj [])
    let row_a_score ← pyGetAttrD rowA "score" (.num 0)
    let row_b_score ← pyGetAttrD rowB "score" (.num 0)
    let row_c_score ← pyGetAttrD rowC "score" (.num 0)
    let total_score ← pyAdd (← pyAdd row_a_score row_b_score) row_c_score
    let summary_content := pyGetD fields "summary" (.obj [])
    let overall_assessment : JVal :=
      match summary_content with
      | .obj s => pyGetD s "summary" (.str "")
      | .str s => .str s
      | _ => .str ""
    let fact_check := pyGetD fields "fact_check" .null
    let fact_check_html : String ←
      match fact_check with
      | .null => pure ""
      | .obj fc =>
        if pyEqZero (pyGetD fc "score" (.num 1)) then do
          let pen1 ← pyAdd row_a_score (.num 1)
          let penalized_total_score ← pyAdd pen1 row_c_score
          pure (factCheckHtml (pyStr (pyGetD fc "reasoning" (.str "")))
            (pyStr penalized_total_score) (pyStr total_score))
        else pure ""
      | _ => .error "AttributeError: no attribute get (key score)"
    let comm_a ← pyGetAttrD rowA "commentary" (.str "")
    let impr_a ← pyGetAttrD rowA "improvements" (.str "")
    let comm_b ← pyGetAttrD rowB "commentary" (.str "")
    let impr_b ← pyGetAttrD rowB "improvements" (.str "")
    let comm_c ← pyGetAttrD rowC "commentary" (.str "")
    let impr_c ← pyGetAttrD rowC "improvements" (.str "")
    pure (llHtmlTpl fact_check_html (pyStr total_score) (pyStr overall_assessment)
      (pyStr row_a_score) (pyStr comm_a) (pyStr impr_a)
      (pyStr row_b_score) (pyStr comm_b) (pyStr impr_b)
      (pyStr row_c_score) (pyStr comm_c) (pyStr impr_c))
  | _ => .error "AttributeError: no attribute get (key rowA)"

/-- Embeds `create_language_literature_html`
(src/ap-env-plus-router.py lines 632-832): run the body and, like the
enclosing `try`/`except`, turn any raised exception into the error
document instead of propagating it. -/
def create_language_literature_html (api_response : JVal) : String :=
  match llBody api_response with
  | .ok html => html
  | .error e => llErrorHtml e

/-- Whether a parsed JSON object has a binding for `key` (Python `in`). -/
def containsKey (fields : List (String × JVal)) (key : String) : Bool :=
  (pyLookup fields key).isSome

/-- Model of Python `>` against 0 for JSON-derived values (`total_points > 0`
raises `TypeError` for non-numeric values). -/
def pyGtZero : JVal → Except String Bool
  | .num n => .ok (0 < n)
  | .bool b => .ok b
  | _ => .error "TypeError: unsupported operand types for >"

/-- Model of `value / value * 100` on JSON-derived values, over exact
rationals (Python computes IEEE doubles; the claims in scope never inspect
the resulting digits). -/
def pyDivTimes100 (a b : JVal) : Except String Rat :=
  let toR : JVal → Option Rat := fun v =>
    match v with
    | .num n => some (n : Rat)
    | .bool bb => some (if bb then 1 else 0)
    | _ => none
  match toR a, toR b with
  | some x, some y =>
    if y = 0 then .error "ZeroDivisionError: division by zero"
    else .ok (x / y * 100)
  | _, _ => .error "TypeError: unsupported operand types for /"

/-- Model of Python `round(x, 1)`: round to one decimal place, ties to even
(over exact rationals; Python rounds the nearest IEEE double, which can
differ on representation ties — no claim inspects those digits). -/
def pyRound1 (q : Rat) : Rat :=
  let t : Rat := q * 10
  let f : Int := t.floor
  let frac : Rat := t - (f : Rat)
  let r : Int :=
    if frac < 1 / 2 then f
    else if 1 / 2 < frac then f + 1
    else if f % 2 = 0 then f else f + 1
  (r : Rat) / 10

/-- Python `str()` of a one-decimal float value (the shape `pyRound1`
produces). -/
def pyFloatStr (q : Rat) : String :=
  let t : Int := (q * 10).floor
  let sign := if t < 0 then "-" else ""
  sign ++ (toString (t.natAbs / 10) ++ ("." ++ toString (t.natAbs % 10)))

/-- The report template of `create_general_course_html`
(src/ap-env-plus-router.py lines 889-1031), with each f-string slot as a
parameter (in source order). -/
def generalHtmlTpl (total_points awarded_points score_percentage rationale feedback_html : String) : String :=
  "
        <style>
        body \x7b
            font-family: \x27Inter\x27, \x27Segoe UI\x27, Tahoma, Geneva, Verdana, sans-serif;
            background: linear-gradient(to right, #F2FCFE, #FDFCFB) !important;
        \x7d

        .ap-general-container \x7b
            max-width: 1200px;
            margin: 0 auto;
            padding: 20px;
            background: rgba(255, 255, 255, 0.8);
            backdrop-filter: blur(6px);
            border-radius: 16px;
            box-shadow: 0 10px 25px rgba(0,0,0,0.1);
        \x7d
        
        .ap-general-title \x7b
            font-size: 28px;
            font-weight: 700;
            text-align: center;
            margin-bottom: 30px;
            color: #2D3748;
            background: linear-gradient(90deg, #FF9A9E, #FAD0C4, #FFD1FF);
            -webkit-background-clip: text;
            -webkit-text-fill-color: transparent;
        \x7d
        
        .ap-results-table \x7b
            width: 100%;
            border-collapse: collapse;
            background: #fff;
            border-radius: 12px;
            overflow: hidden;
            margin-bottom: 1rem;
        \x7d
        
        .ap-results-table th,
        .ap-results-table td \x7b
            padding: 1rem;
            text-align: left;
            border-bottom: 1px solid #eee;
            vertical-align: top;
        \x7d
        
        .ap-results-table th \x7b
            background-color: #f9f9f9;
            text-transform: uppercase;
            font-size: 0.85rem;
            color: #444;
            text-align: center;
        \x7d
        
        .ap-results-table tr:hover \x7b
            background-color: #f6faff;
            transition: background-color 0.3s ease-in-out;
        \x7d
        
        .ap-label \x7b
            font-weight: 600;
            color: #4A5568;
        \x7d
        
        .ap-value \x7b
            color: #2D3748;
        \x7d
        
        .ap-rationale \x7b
            padding: 16px 24px;
            line-height: 1.6;
        \x7d
        
        .ap-feedback-section \x7b
            background: rgba(255, 255, 255, 0.9);
            border-radius: 16px;
            padding: 20px;
            margin-top: 20px;
            box-shadow: 0 10px 25px rgba(0,0,0,0.05);
        \x7d
        
        .ap-feedback-title \x7b
            font-size: 22px;
            font-weight: 600;
            margin-top: 0;
            margin-bottom: 20px;
            color: #2D3748;
            padding-bottom: 10px;
            border-bottom: 2px solid rgba(255, 154, 158, 0.3);
        \x7d
        
        .ap-feedback-list \x7b
            padding-left: 20px;
            margin-bottom: 0;
        \x7d
        
        .ap-feedback-list li \x7b
            margin-bottom: 12px;
            line-height: 1.6;
            color: #4A5568;
        \x7d
        
        .ap-feedback-list li:last-child \x7b
            margin-bottom: 0;
        \x7d
        </style>
        
        <div class=\"ap-general-container\">
            <h1 class=\"ap-general-title\">AP FRQ Evaluation Results</h1>
            
            <table class=\"ap-results-table\">
                <thead>
                    <tr>
                        <th colspan=\"2\">OVERALL RESULTS</th>
                    </tr>
                </thead>
                <tbody>
                    <tr>
                        <td class=\"ap-label\">Total Points</td>
                        <td class=\"ap-value\">" ++ (total_points ++ ("</td>
                    </tr>
                    <tr>
                        <td class=\"ap-label\">Awarded Points</td>
                        <td class=\"ap-value\">" ++ (awarded_points ++ ("</td>
                    </tr>
                    <tr>
                        <td class=\"ap-label\">Score (%)</td>
                        <td class=\"ap-value\">" ++ (score_percentage ++ ("%</td>
                    </tr>
                    <tr>
                        <td class=\"ap-label\">Rationale</td>
                        <td class=\"ap-rationale\">" ++ (rationale ++ ("</td>
                    </tr>
                </tbody>
            </table>
            
            <div class=\"ap-feedback-section\">
                <h2 class=\"ap-feedback-title\">Feedback to the Student:</h2>
                <ol class=\"ap-feedback-list\">
                    " ++ (feedback_html ++ ("
                </ol>
            </div>
        </div>
        "))))))))))

/-- Statement part of `create_general_course_html`
(src/ap-env-plus-router.py lines 844-1033), over an already-parsed response
(see `llBody` for the serialisation round trip). -/
def generalBody (api_response : JVal) : Except String String := do
  match api_response with
  | .obj fields =>
    let total_points := pyGetD fields "total_points" (.num 0)
    let awarded_points := pyGetD fields "awarded_points" (.num 0)
    let score_percentage : String ←
      if containsKey fields "score_percentage" then
        pure (pyStr (pyGetD fields "score_percentage" (.num 0)))
      else do
        let gt ← pyGtZero total_points
        if gt then do
          let q ← pyDivTimes100 awarded_points total_points
          pure (pyFloatStr (pyRound1 q))
        else pure (pyStr (.num 0))
    let r1 := pyGetD fields "rationale" (.str "")
    let rationale : JVal :=
      if pyTruthy r1 then r1 else pyGetD fields "rationale_for_the_score" (.str "")
    let feedback_points : List JVal :=
      if containsKey fields "feedback" then
        match pyGetD fields "feedback" (.arr []) with
        | .arr xs => xs
        | .str s => [.str s]
        | _ => []
      else if containsKey fields "feedback_to_the_student" then
        match pyGetD fields "feedback_to_the_student" (.arr []) with
        | .arr xs => xs
        | .str s => [.str s]
        | _ => []
      else []
    let feedback_html0 :=
      (feedback_points.map fun point => "<li>" ++ (pyStr point ++ "</li>")).foldl (· ++ ·) ""
    let feedback_html :=
      if feedback_html0 = "" then "<li>No specific feedback points provided.</li>"
      else feedback_html0
    pure (generalHtmlTpl (pyStr total_points) (pyStr awarded_points)
      score_percentage (pyStr rationale) feedback_html)
  | _ => .error "AttributeError: no attribute get (key total_points)"

/-- Embeds `create_general_course_html`
(src/ap-env-plus-router.py lines 834-1041): run the body and turn any raised
exception into the error document (the `except` clause, textually identical
to the language/literature one). -/
def create_general_course_html (api_response : JVal) : String :=
  match generalBody api_response with
  | .ok html => html
  | .error e => llErrorHtml e


/-- Embeds `create_scoring_prompt` (src/ap-frq-grader.py lines 59-110),
with the `json.dumps(SCORING_RESPONSE_SCHEMA, indent=2)` interpolation
expanded to the exact text it produces. -/
def create_scoring_prompt (question student_answer scoring_rubric : String) : String :=
  "You are an encouraging AP teacher providing personalized feedback to help students improve. Your role is to evaluate their work and offer constructive guidance. When writing feedback, imagine having a supportive one-on-one conversation with the student.

Task Description:
1. Review the student\x27s work with an encouraging mindset
2. Calculate points earned and total possible points
3. Determine the percentage score
4. Explain the score in a way that recognizes strengths while gently pointing out areas for growth
5. Provide specific, actionable suggestions for improvement

Components to Evaluate:
Question Answered: " ++ (question ++ ("
Student\x27s Response: " ++ (student_answer ++ ("
Scoring Criteria: " ++ (scoring_rubric ++ ("

If no scoring rubric is provided, evaluate the response based on:
1. The question\x27s complexity (setting appropriate total points: 3-5 for basic questions, 5-10 for complex ones)
2. These key aspects of the student\x27s answer:
   - How thoroughly the question was addressed
   - The depth of understanding demonstrated
   - Effective use of course concepts and terminology
   - Clarity and strength of reasoning
   - Organization of thoughts

CRITICAL INSTRUCTIONS:
1. Respond with a JSON object containing these specific fields:
   - total_points: The maximum points possible for this question
   - awarded_points: The points earned by the student\x27s response
   - score: The percentage score (awarded_points / total_points) * 100
   - rationale_for_the_score: A personalized 2-3 line explanation of the score, highlighting what the student did well and where they can grow
   - feedback_to_the_student: Three specific suggestions written encouragingly (e.g., \"Consider including more...\")

IMPORTANT ADDITIONAL INSTRUCTION:
If the student\x27s answer is similar to the reference text or is a direct copy-paste of the reference text, you must award zero points in awarded_points and score and explain the reason in the rationale. The total points would be according to the total number of parts and information required by the question, etc.

2. Format Requirements:
   - Use this exact JSON format:
\x7b
  \"total_points\": \"<maximum points possible based on rubric>\",
  \"awarded_points\": \"<points the student earned on this response>\",
  \"score\": \"<student\x27s percentage score (awarded_points / total_points) * 100>\",
  \"rationale_for_the_score\": \"<personalized explanation of the student\x27s score highlighting strengths and areas for growth>\",
  \"feedback_to_the_student\": [
    \"<first specific suggestion to help the student improve>\",
    \"<second specific suggestion to help the student improve>\",
    \"<third specific suggestion to help the student improve>\"
  ]
\x7d
   - Keep all feedback within the JSON structure
   - Avoid any additional formatting

Note: All feedback should be:
- Personalized to the student\x27s response
- Specific and actionable
- Encouraging and constructive
- Focused on improvement
- Relevant to AP course standards

PENALTY WARNING: Any response not in the exact JSON format specified above will result in a penalty. Make sure all feedback is specific, actionable, and directly related to the AP course standards.
"))))))

/-- Outcome of one attempt of the Claude transport wrapper: a 200 response
whose text was extracted, a non-2xx response with its status and body text,
or a raised exception with its message.  (Extraction of the content text
from the 200 body happens inside the `try`, so an attempt is `success`
exactly when it produced a result text.) -/
inductive Attempt where
  | success (text : String)
  | httpError (status : Nat) (body : String)
  | exc (msg : String)

/-- Whether an attempt outcome is a failure (non-2xx or exception). -/
def Attempt.isFailure : Attempt → Bool
  | .success _ => false
  | _ => true

/-- Result of running a retrying wrapper: the returned text or the raised
`HTTPException` (status and detail), together with how many attempts were
performed and the list of backoff sleep durations (seconds, in order). -/
structure CallRun where
  outcome : Except (Nat × String) String
  attemptsMade : Nat
  sleeps : List Nat

/-- Model of Python `str(e)` for a fastapi/starlette `HTTPException`:
starlette renders it as `f"{status_code}: {detail}"`. -/
def httpExceptionStr (status : Nat) (detail : String) : String :=
  toString status ++ (": " ++ detail)

/-- The status carried by a raised `HTTPException` outcome (0 for a
successful outcome); used to state which status a wrapper's fatal error
actually carries. -/
def errStatus : Except (Nat × String) String → Nat
  | .error (st, _) => st
  | .ok _ => 0

/-- The retry loop of `call_claude_api` (src/ap-env-plus-router.py lines
229-266): `for attempt in range(3)`, returning on a success, sleeping 4
seconds and continuing on a failure while `attempt < 2`, and raising an
`HTTPException` on the final failure.  On the final non-2xx response the
source raises `HTTPException(response.status_code, "Claude API call
failed: " + response.text)` **inside the `try` suite** (line 255);
`HTTPException` subclasses `Exception`, so `except Exception as e`
(line 259) catches that raise at `attempt == 2` and re-raises
`HTTPException(500, "Error calling Claude API: " + str(e))` (line 263) —
the upstream status reaches the caller only as text inside `str(e)`, not
as the error's status.  A final-attempt exception raises
`HTTPException(500, "Error calling Claude API: " + str(e))` directly.
The attempt index and the remaining-iteration fuel are explicit; the
fuel-0 base case is unreachable from `call_claude_api_model`. -/
def claudeAttempts (o : Nat → Attempt) : Nat → Nat → CallRun
  | _, 0 => ⟨.error (500, "retry loop exhausted"), 0, []⟩
  | i, fuel + 1 =>
    match o i with
    | .success t => ⟨.ok t, 1, []⟩
    | .httpError st body =>
      if i < 2 then
        let r := claudeAttempts o (i + 1) fuel
        ⟨r.outcome, r.attemptsMade + 1, 4 :: r.sleeps⟩
      else
        ⟨.error (500, "Error calling Claude API: " ++
          httpExceptionStr st ("Claude API call failed: " ++ body)), 1, []⟩
    | .exc m =>
      if i < 2 then
        let r := claudeAttempts o (i + 1) fuel
        ⟨r.outcome, r.attemptsMade + 1, 4 :: r.sleeps⟩
      else ⟨.error (500, "Error calling Claude API: " ++ m), 1, []⟩

/-- Embeds `call_claude_api` (src/ap-env-plus-router.py lines 229-266),
with the outcome of each attempt supplied by the oracle `o`. -/
def call_claude_api_model (o : Nat → Attempt) : CallRun :=
  claudeAttempts o 0 3

/-- Outcome of one attempt of the OpenAI SDK wrapper, which surfaces every
failure (transport or non-2xx) as a raised exception. -/
inductive OAttempt where
  | success (text : String)
  | exc (msg : String)

/-- Whether an OpenAI attempt outcome is a failure. -/
def OAttempt.isFailure : OAttempt → Bool
  | .success _ => false
  | _ => true

/-- The retry loop of `call_openai_api` (src/ap-env-plus-router.py lines
268-289 and, textually identically, src/ap-frq-grader.py lines 138-159):
3 attempts, a 4-second sleep between attempts, and a 500 `HTTPException`
with the exception message on the final failure. -/
def openaiAttempts (o : Nat → OAttempt) : Nat → Nat → CallRun
  | _, 0 => ⟨.error (500, "retry loop exhausted"), 0, []⟩
  | i, fuel + 1 =>
    match o i with
    | .success t => ⟨.ok t, 1, []⟩
    | .exc m =>
      if i < 2 then
        let r := openaiAttempts o (i + 1) fuel
        ⟨r.outcome, r.attemptsMade + 1, 4 :: r.sleeps⟩
      else ⟨.error (500, "Error calling OpenAI API: " ++ m), 1, []⟩

/-- Embeds `call_openai_api`, with each attempt's outcome supplied by the
oracle `o`. -/
def call_openai_api_model (o : Nat → OAttempt) : CallRun :=
  openaiAttempts o 0 3

/-- Model of Python `key in value` for JSON-derived values: dict key test,
list membership, substring test on strings, `TypeError` otherwise. -/
def pyIn (key : String) (v : JVal) : Except String Bool :=
  match v with
  | .obj fields => .ok (containsKey fields key)
  | .arr xs =>
    .ok (xs.any fun x => match x with | .str s => s = key | _ => false)
  | .str s => .ok (findIdxOfPat key.data s.data).isSome
  | _ => .error "TypeError: argument is not iterable"

/-- Model of Python subscripting `value[key]` with a string key: dict lookup
(`KeyError` when absent), `TypeError` on any other value. -/
def pySubscript (v : JVal) (key : String) : Except String JVal :=
  match v with
  | .obj fields =>
    match pyLookup fields key with
    | some w => .ok w
    | none => .error ("KeyError: " ++ key)
  | _ => .error "TypeError: value is not subscriptable with a string"

/-- Embeds the score computation shared by the language and literature
branches of `grade_frq` (src/ap-env-plus-router.py lines 1130-1139 and,
textually identically, lines 1168-1177): total possible is the constant 6;
total earned is the `original_total_score` field when that key is present,
and otherwise the sum of the three row scores, each defaulting to 0.
Returns `(total_earned_points, total_possible_points)`. -/
def langlit_totals (api_response : JVal) : Except String (Int × Int) := do
  let has ← pyIn "original_total_score" api_response
  if has then
    let v ← pySubscript api_response "original_total_score"
    let earned ← pyFloat v
    pure (earned, 6)
  else
    let rowA ← pyGetAttrD api_response "rowA" (.obj [])
    let row_a_score ← pyGetAttrD rowA "score" (.num 0)
    let rowB ← pyGetAttrD api_response "rowB" (.obj [])
    let row_b_score ← pyGetAttrD rowB "score" (.num 0)
    let rowC ← pyGetAttrD api_response "rowC" (.obj [])
    let row_c_score ← pyGetAttrD rowC "score" (.num 0)
    let s ← pyAdd (← pyAdd row_a_score row_b_score) row_c_score
    let earned ← pyFloat s
    pure (earned, 6)

/-- An upstream call performed by a handler: a Claude message, an OpenAI
message, or an HTTP POST of a JSON payload to an endpoint URL. -/
inductive UpCall where
  | claudeMsg (prompt : String)
  | openaiMsg (prompt : String)
  | postJson (url : String) (payload : JVal)

/-- An HTTP response as seen through `requests`: status code and body text
(`response.json()` is `json_loads` of the body). -/
structure HttpResp where
  status : Nat
  text : String

/-- The fields of the `GradingResponse` model
(src/ap-env-plus-router.py lines 47-52); the two point counts are floats in
the source and integral in every case the programs produce. -/
structure GradingResponseM where
  scoring_response : String
  feedback_response : String
  html_for_app : String
  total_possible_points : Int
  total_earned_points : Int

/-- The AP Language scoring endpoint (src/ap-env-plus-router.py line 43). -/
def LANG_ENDPOINT : String := "https://api-ap-lang-essay-grader.onrender.com/grade"

/-- The AP Literature scoring endpoint (src/ap-env-plus-router.py line 44). -/
def LIT_ENDPOINT : String := "https://api-ap-lit-essay-grader.onrender.com/grade"

/-- The general AP grader endpoint (src/ap-env-plus-router.py line 1197). -/
def GENERAL_ENDPOINT : String := "https://api-ap-grader.onrender.com/score"

/-- Embeds the Environmental Science branch of `grade_frq`
(src/ap-env-plus-router.py lines 1084-1112): build the stage-1 prompt, call
Claude, build the stage-2 prompt around whatever text stage 1 produced, call
OpenAI, then extract the score pair and render.  The two generator oracles
give the text each (retry-wrapped) upstream call eventually returned;
the returned list is the sequence of upstream calls made. -/
def env_branch (question student_answer scoring_rubric image_data : String)
    (claudeFn openaiFn : String → String) : List UpCall × GradingResponseM :=
  let claude_prompt := create_claude_prompt question student_answer scoring_rubric image_data
  let scoring_response := claudeFn claude_prompt
  let openai_prompt := create_openai_prompt scoring_response
  let feedback_response := openaiFn openai_prompt
  let scores := extract_score_from_env_science scoring_response feedback_response
  let html_for_app := create_environmental_science_html scoring_response feedback_response
  ([.claudeMsg claude_prompt, .openaiMsg openai_prompt],
   ⟨scoring_response, feedback_response, html_for_app,
    (scores.2 : Int), (scores.1 : Int)⟩)

/-- Embeds the language/literature branches of `grade_frq`
(src/ap-env-plus-router.py lines 1115-1150 and 1153-1188, which differ only
in endpoint and error label): POST the essay payload, raise a 500 with the
response text on a non-2xx status, otherwise parse the body, compute the
totals, render, and assemble the response. -/
def lang_lit_branch (endpoint courseLabel question student_answer : String)
    (postFn : String → JVal → HttpResp) :
    List UpCall × Except (Nat × String) GradingResponseM :=
  let payload : JVal := .obj [("full_question", .str question),
    ("student_essay", .str student_answer), ("reference_text", .str "")]
  let resp := postFn endpoint payload
  let calls := [UpCall.postJson endpoint payload]
  if resp.status ≠ 200 then
    (calls, .error (500, "Error from AP " ++ courseLabel ++ " API: " ++ resp.text))
  else
    match json_loads resp.text with
    | none => (calls, .error (500, "Internal server error: JSONDecodeError"))
    | some api_response =>
      let api_response_json := json_dumps api_response
      match langlit_totals api_response with
      | .error e => (calls, .error (500, "Internal server error: " ++ e))
      | .ok (earned, possible) =>
        (calls, .ok ⟨api_response_json, "",
          create_language_literature_html api_response, possible, earned⟩)

/-- Embeds the general (fallback) branch of `grade_frq`
(src/ap-env-plus-router.py lines 1191-1219). -/
def general_branch (question student_answer scoring_rubric : String)
    (postFn : String → JVal → HttpResp) :
    List UpCall × Except (Nat × String) GradingResponseM :=
  let payload : JVal := .obj [("question", .str question),
    ("student_answer", .str student_answer),
    ("scoring_rubric", .str scoring_rubric)]
  let resp := postFn GENERAL_ENDPOINT payload
  let calls := [UpCall.postJson GENERAL_ENDPOINT payload]
  if resp.status ≠ 200 then
    (calls, .error (500, "Error from AP grader API: " ++ resp.text))
  else
    match json_loads resp.text with
    | none => (calls, .error (500, "Internal server error: JSONDecodeError"))
    | some api_response =>
      let api_response_json := json_dumps api_response
      let totals := do
        let tp ← pyGetAttrD api_response "total_points" (.num 0)
        let total_possible ← pyFloat tp
        let ap ← pyGetAttrD api_response "awarded_points" (.num 0)
        let total_earned ← pyFloat ap
        pure (total_earned, total_possible)
      match totals with
      | .error e => (calls, .error (500, "Internal server error: " ++ e))
      | .ok (earned, possible) =>
        (calls, .ok ⟨api_response_json, "",
          create_general_course_html api_response, possible, earned⟩)

/-- Embeds the `grade_frq` handler (src/ap-env-plus-router.py lines
1043-1224) from the point where the form fields are bound: the image files
have already been base64-joined into `image_data` (lines 1068-1077), the
Claude/OpenAI oracles give the text each retry-wrapped generator call
returned, and `postFn` answers the scoring-endpoint POSTs.  There is no
validation of the field values: the handler always proceeds directly to the
classification call, then normalizes and dispatches on the classified
course.  The result is the list of upstream calls in order, with either the
assembled `GradingResponse` or the raised `HTTPException`. -/
def grade_frq_model (course_title question student_answer scoring_rubric image_data : String)
    (claudeFn openaiFn : String → String) (postFn : String → JVal → HttpResp) :
    List UpCall × Except (Nat × String) GradingResponseM :=
  let cls_prompt := create_classification_prompt course_title question
  let cls_call := UpCall.claudeMsg cls_prompt
  match classify_frq_course_extract (claudeFn cls_prompt) course_title with
  | .error e => ([cls_call], .error (500, "Internal server error: " ++ e))
  | .ok classified =>
    match classified with
    | .str classified_course =>
      let normalized_course := normalize_course_name classified_course
      match route normalized_course with
      | .twoStage =>
        let r := env_branch question student_answer scoring_rubric image_data claudeFn openaiFn
        (cls_call :: r.1, .ok r.2)
      | .language =>
        let r := lang_lit_branch LANG_ENDPOINT "Language" question student_answer postFn
        (cls_call :: r.1, r.2)
      | .literature =>
        let r := lang_lit_branch LIT_ENDPOINT "Literature" question student_answer postFn
        (cls_call :: r.1, r.2)
      | .general =>
        let r := general_branch question student_answer scoring_rubric postFn
        (cls_call :: r.1, r.2)
    | _ =>
      ([cls_call], .error (500,
        "Internal server error: AttributeError: no attribute strip"))

/-- Embeds the `score_answer` handler (src/ap-frq-grader.py lines 161-216).
The `calculations_check` helper is imported from a module that is not part
of the repository snapshot; its result is abstracted into the
`calcRequires`/`calcReasoning` parameters, which only extend the rubric text
after validation has already passed.  Validation runs first: a request with
any empty required field is rejected with a 400 before any upstream call.
Pydantic construction of the response model is abstracted to requiring the
five response keys. -/
def score_answer_model (question student_answer scoring_rubric : String)
    (calcRequires : Bool) (calcReasoning : String) (openaiFn : String → String) :
    List UpCall × Except (Nat × String) JVal :=
  if question = "" ∨ student_answer = "" ∨ scoring_rubric = "" then
    ([], .error (400, "All fields (question, student_answer, scoring_rubric) are required"))
  else
    let scoring_rubric2 :=
      if calcRequires then scoring_rubric ++ ("\nNote: " ++ calcReasoning)
      else scoring_rubric
    let prompt := create_scoring_prompt question student_answer scoring_rubric2
    let response := openaiFn prompt
    let calls := [UpCall.openaiMsg prompt]
    if response = "" then
      (calls, .error (500, "Failed to get response from Claude API"))
    else
      match json_loads response with
      | none => (calls, .error (500, "Invalid JSON response from Claude: JSONDecodeError"))
      | some (.obj fields) =>
        if ["total_points", "awarded_points", "score", "rationale_for_the_score",
            "feedback_to_the_student"].all (containsKey fields) then
          (calls, .ok (.obj fields))
        else (calls, .error (500, "Internal server error: ValidationError"))
      | some _ => (calls, .error (500, "Internal server error: TypeError"))

/-- The string `pat` occurs contiguously inside `s` (the rendered-view
"displays" relation used by the claims about the HTML renderers). -/
def ContainsStr (pat s : String) : Prop :=
  ∃ p q, s = p ++ (pat ++ q)

/-- Introduction: a string built around `pat` contains it. -/
theorem containsStr_intro (pat p q : String) : ContainsStr pat (p ++ (pat ++ q)) :=
  ⟨p, q, rfl⟩

/-- Containment is preserved by prepending. -/
theorem ContainsStr.appL {pat s : String} (a : String) (h : ContainsStr pat s) :
    ContainsStr pat (a ++ s) := by
  obtain ⟨p, q, hs⟩ := h
  exact ⟨a ++ p, q, by rw [hs, String.append_assoc]⟩

/-- Containment is preserved by appending. -/
theorem ContainsStr.appR {pat s : String} (b : String) (h : ContainsStr pat s) :
    ContainsStr pat (s ++ b) := by
  obtain ⟨p, q, hs⟩ := h
  refine ⟨p, q ++ b, ?_⟩
  rw [hs, String.append_assoc, String.append_assoc]

/-- The empty string is a right identity of append. -/
theorem strAppend_empty (s : String) : s ++ "" = s :=
  congrArg String.mk (List.append_nil s.data)

/-- Every string contains itself. -/
theorem containsStr_refl (s : String) : ContainsStr s s :=
  ⟨"", "", by rw [strAppend_empty]; rfl⟩

/-- Inversion of a successful `Except` bind (shared proof helper). -/
theorem bindOk {ε α β : Type} {x : Except ε α} {f : α → Except ε β} {y : β}
    (h : (x >>= f) = .ok y) : ∃ a, x = .ok a ∧ f a = .ok y := by
  cases x <;> simp_all [Bind.bind, Except.bind]

/-- C2 (counterexample): the claim says any normalized course containing
"environmental science" as a substring selects the two-stage strategy, but
the dispatch compares for equality: "AP Environmental Science Unit 2"
normalizes to a string containing "environmental science" yet routes to the
general strategy. -/
theorem course_dispatch_containment_cex :
    ContainsStr "environmental science"
      (normalize_course_name "AP Environmental Science Unit 2")
    ∧ route (normalize_course_name "AP Environmental Science Unit 2") = .general
    ∧ route (normalize_course_name "AP Environmental Science Unit 2") ≠ .twoStage :=
  ⟨⟨"", " unit 2", rfl⟩, rfl, by decide⟩

/-- C2 (amended): course names are normalized by lowercasing, stripping
surrounding whitespace and a leading "ap " prefix; dispatch then compares
the normalized value for equality — "environmental science" selects the
two-stage strategy, "language" the language strategy, "literature" the
literature strategy, and every other value (including the empty string)
selects the general strategy. -/
theorem course_dispatch_normalized_equality (c : String) :
    (normalize_course_name c = "environmental science" →
      route (normalize_course_name c) = .twoStage)
    ∧ (normalize_course_name c = "language" →
      route (normalize_course_name c) = .language)
    ∧ (normalize_course_name c = "literature" →
      route (normalize_course_name c) = .literature)
    ∧ (normalize_course_name c ≠ "environmental science" →
       normalize_course_name c ≠ "language" →
       normalize_course_name c ≠ "literature" →
      route (normalize_course_name c) = .general)
    ∧ normalize_course_name "AP Literature" = "literature"
    ∧ normalize_course_name "  AP Environmental Science " = "environmental science"
    ∧ route "" = .general := by
  refine ⟨?_, ?_, ?_, ?_, rfl, rfl, rfl⟩
  · intro h; simp [route, h]
  · intro h; simp [route, h]
  · intro h; simp [route, h]
  · intro h1 h2 h3; simp [route, h1, h2, h3]

/-- C2 (witness): the amended dispatch at the concrete input "AP Literature". -/
theorem course_dispatch_normalized_equality_witness :
    normalize_course_name "AP Literature" = "literature"
    ∧ route (normalize_course_name "AP Literature") = .literature :=
  ⟨rfl, (course_dispatch_normalized_equality "AP Literature").2.2.1 rfl⟩

/-- C3 (counterexample): the claim says no step of the extraction chain
raises, but a classification response that is valid JSON without being an
object — here the array `[1]` — makes step 1 parse successfully and then
raise `AttributeError` on `.get`, so the chain neither returns a success
nor falls back to the course title. -/
theorem classify_chain_raises_on_nonobject_cex :
    json_loads "[1]" = some (.arr [.num 1])
    ∧ classify_frq_course_extract "[1]" "AP Biology" =
        .error "AttributeError: no attribute get (key course_of_the_frq)" :=
  ⟨rfl, rfl⟩

/-- C3 (amended): the classification extraction applies the ordered chain —
whole-text JSON parse, braced-span JSON parse, textual key pattern — and
returns the first success, falling back to the caller-supplied course
title when every step fails; no step raises **except** that a whole text
which parses as JSON that is not an object raises `AttributeError`.  In
particular `'Some prose {"course_of_the_frq": "AP Biology"} trailing'`
yields "AP Biology" via the braced span. -/
theorem classify_chain_ordered_fallbacks (t d sp w : String)
    (kvs : List (String × JVal)) (v : JVal) :
    (json_loads t = some (.obj kvs) →
      classify_frq_course_extract t d = .ok (pyGetD kvs "course_of_the_frq" (.str "")))
    ∧ (json_loads t = some v → (∀ kvs2, v ≠ .obj kvs2) →
      classify_frq_course_extract t d =
        .error "AttributeError: no attribute get (key course_of_the_frq)")
    ∧ (json_loads t = none → regex_brace_span t = some sp →
       json_loads sp = some (.obj kvs) →
      classify_frq_course_extract t d = .ok (pyGetD kvs "course_of_the_frq" (.str "")))
    ∧ (json_loads t = none → regex_brace_span t = some sp → json_loads sp = none →
       scanFor courseKeyAt t.data = some w →
      classify_frq_course_extract t d = .ok (.str w))
    ∧ (json_loads t = none → regex_brace_span t = some sp → json_loads sp = none →
       scanFor courseKeyAt t.data = none →
      classify_frq_course_extract t d = .ok (.str d))
    ∧ (json_loads t = none → regex_brace_span t = none →
       scanFor courseKeyAt t.data = some w →
      classify_frq_course_extract t d = .ok (.str w))
    ∧ (json_loads t = none → regex_brace_span t = none →
       scanFor courseKeyAt t.data = none →
      classify_frq_course_extract t d = .ok (.str d))
    ∧ classify_frq_course_extract
        "Some prose \x7b\"course_of_the_frq\": \"AP Biology\"\x7d trailing" d =
        .ok (.str "AP Biology") := by
  refine ⟨?_, ?_, ?_, ?_, ?_, ?_, ?_, rfl⟩
  · intro h; simp [classify_frq_course_extract, h]
  · intro h1 h2
    cases v <;> simp [classify_frq_course_extract, h1]
    exact absurd rfl (h2 _)
  · intro h1 h2 h3; simp [classify_frq_course_extract, h1, h2, h3]
  · intro h1 h2 h3 h4; simp [classify_frq_course_extract, h1, h2, h3, h4]
  · intro h1 h2 h3 h4; simp [classify_frq_course_extract, h1, h2, h3, h4]
  · intro h1 h2 h3; simp [classify_frq_course_extract, h1, h2, h3]
  · intro h1 h2 h3; simp [classify_frq_course_extract, h1, h2, h3]

/-- C3 (witness): the amended chain applied at concrete inputs — a
whole-text JSON object, and a total failure that falls back to the course
title. -/
theorem classify_chain_ordered_fallbacks_witness :
    json_loads "\x7b\"course_of_the_frq\": \"AP Chemistry\"\x7d" =
      some (.obj [("course_of_the_frq", .str "AP Chemistry")])
    ∧ classify_frq_course_extract "\x7b\"course_of_the_frq\": \"AP Chemistry\"\x7d" "T" =
        .ok (pyGetD [("course_of_the_frq", .str "AP Chemistry")]
          "course_of_the_frq" (.str ""))
    ∧ json_loads "no json here" = none
    ∧ regex_brace_span "no json here" = none
    ∧ scanFor courseKeyAt "no json here".data = none
    ∧ classify_frq_course_extract "no json here" "Original Title" =
        .ok (.str "Original Title") :=
  ⟨rfl,
   (classify_chain_ordered_fallbacks "\x7b\"course_of_the_frq\": \"AP Chemistry\"\x7d"
     "T" "" "" [("course_of_the_frq", .str "AP Chemistry")] .null).1 rfl,
   rfl, rfl, rfl,
   (classify_chain_ordered_fallbacks "no json here" "Original Title" "" ""
     [] .null).2.2.2.2.2.2.1 rfl rfl rfl⟩

/-- C10 (counterexample): the claim quantifies over every response text
that "parses as JSON but does not contain the course_of_the_frq key"; the
text `"hello"` parses as a JSON string containing no keys, yet
classification raises `AttributeError` instead of returning the empty
string. -/
theorem classify_json_nonobject_cex :
    json_loads "\"hello\"" = some (.str "hello")
    ∧ classify_frq_course_extract "\"hello\"" "Fallback" =
        .error "AttributeError: no attribute get (key course_of_the_frq)" :=
  ⟨rfl, rfl⟩

/-- C10 (amended): a classification response text that parses as a JSON
**object** (whole text, or the braced span when whole-text parsing fails)
without a `course_of_the_frq` key makes classification return the empty
string rather than the caller-supplied course title; the empty string
normalizes to itself and routes to the general strategy. -/
theorem classify_missing_key_empty_string (t d sp : String)
    (kvs : List (String × JVal)) :
    (json_loads t = some (.obj kvs) → pyLookup kvs "course_of_the_frq" = none →
      classify_frq_course_extract t d = .ok (.str ""))
    ∧ (json_loads t = none → regex_brace_span t = some sp →
       json_loads sp = some (.obj kvs) → pyLookup kvs "course_of_the_frq" = none →
      classify_frq_course_extract t d = .ok (.str ""))
    ∧ normalize_course_name "" = ""
    ∧ route (normalize_course_name "") = .general := by
  refine ⟨?_, ?_, rfl, rfl⟩
  · intro h1 h2; simp [classify_frq_course_extract, h1, pyGetD, h2]
  · intro h1 h2 h3 h4; simp [classify_frq_course_extract, h1, h2, h3, pyGetD, h4]

/-- C10 (witness): concrete object responses without the key, through both
the whole-text route and the braced-span route. -/
theorem classify_missing_key_empty_string_witness :
    json_loads "\x7b\"foo\": 1\x7d" = some (.obj [("foo", .num 1)])
    ∧ pyLookup [(("foo" : String), JVal.num 1)] "course_of_the_frq" = none
    ∧ classify_frq_course_extract "\x7b\"foo\": 1\x7d" "Given Title" = .ok (.str "")
    ∧ classify_frq_course_extract "prose \x7b\"foo\": 1\x7d tail" "Given Title" =
        .ok (.str "") :=
  ⟨rfl, rfl,
   (classify_missing_key_empty_string "\x7b\"foo\": 1\x7d" "Given Title" ""
     [("foo", .num 1)]).1 rfl rfl,
   (classify_missing_key_empty_string "prose \x7b\"foo\": 1\x7d tail" "Given Title"
     "\x7b\"foo\": 1\x7d" [("foo", .num 1)]).2.1 rfl rfl rfl rfl⟩

/-- C4 (confirmed): two-stage score extraction searches
`Final Score: (\d+)/(\d+)` in the feedback text first and returns that
pair; otherwise it searches `Total Score: (\d+)/(\d+)` after a
`<score_estimate>` tag in the scoring text; if both fail it returns the
`(0, 0)` sentinel, distinguishable from a genuine zero score by its zero
possible-points component.  A text containing "Final Score: 4/6" yields
(4, 6) and a text with no recognizable pattern yields (0, 0). -/
theorem env_score_extraction_chain (scoring feedback : String) (e p : Nat) :
    (findFinalScore feedback = some (e, p) →
      extract_score_from_env_science scoring feedback = (e, p))
    ∧ (findFinalScore feedback = none → findScoreEstimate scoring = some (e, p) →
      extract_score_from_env_science scoring feedback = (e, p))
    ∧ (findFinalScore feedback = none → findScoreEstimate scoring = none →
      extract_score_from_env_science scoring feedback = (0, 0))
    ∧ extract_score_from_env_science "" "The result. Final Score: 4/6 overall" = (4, 6)
    ∧ extract_score_from_env_science "no recognizable pattern" "nothing here" = (0, 0) := by
  refine ⟨?_, ?_, ?_, rfl, rfl⟩
  · intro h; simp [extract_score_from_env_science, h]
  · intro h1 h2; simp [extract_score_from_env_science, h1, h2]
  · intro h1 h2; simp [extract_score_from_env_science, h1, h2]

/-- C4 (witness): the extraction chain applied at concrete inputs through
both the first pattern and the sentinel fallback. -/
theorem env_score_extraction_chain_witness :
    findFinalScore "Final Score: 4/6" = some (4, 6)
    ∧ extract_score_from_env_science "irrelevant" "Final Score: 4/6" = (4, 6)
    ∧ findFinalScore "no pattern" = none
    ∧ findScoreEstimate "also no pattern" = none
    ∧ extract_score_from_env_science "also no pattern" "no pattern" = (0, 0) :=
  ⟨rfl,
   (env_score_extraction_chain "irrelevant" "Final Score: 4/6" 4 6).1 rfl,
   rfl, rfl,
   (env_score_extraction_chain "also no pattern" "no pattern" 0 0).2.2.1 rfl rfl⟩

/-- C5 (confirmed): for a language/literature upstream response object, the
branch total is `(earned, 6)`: the possible points are constantly 6, and
the earned points are the `original_total_score` field when present and the
sum of the three row scores (each defaulting to 0) otherwise. -/
theorem langlit_totals_spec (kvs ra rb rc : List (String × JVal)) (n a b c : Int) :
    (pyLookup kvs "original_total_score" = some (.num n) →
      langlit_totals (.obj kvs) = .ok (n, 6))
    ∧ (pyLookup kvs "original_total_score" = none →
       pyGetD kvs "rowA" (.obj []) = .obj ra → pyGetD ra "score" (.num 0) = .num a →
       pyGetD kvs "rowB" (.obj []) = .obj rb → pyGetD rb "score" (.num 0) = .num b →
       pyGetD kvs "rowC" (.obj []) = .obj rc → pyGetD rc "score" (.num 0) = .num c →
      langlit_totals (.obj kvs) = .ok (a + b + c, 6))
    ∧ (∀ earned possible, langlit_totals (.obj kvs) = .ok (earned, possible) →
      possible = 6) := by
  refine ⟨?_, ?_, ?_⟩
  · intro h
    simp [langlit_totals, pyIn, containsKey, h, pySubscript, pyFloat,
      Bind.bind, Except.bind, pure, Except.pure]
  · intro h0 h1 h2 h3 h4 h5 h6
    simp [langlit_totals, pyIn, containsKey, h0, h1, h2, h3, h4, h5, h6,
      pyGetAttrD, pyAdd, pyFloat, Bind.bind, Except.bind, pure, Except.pure]
  · intro earned possible h
    unfold langlit_totals at h
    simp only [pyIn, Bind.bind, Except.bind] at h
    by_cases hc : containsKey kvs "original_total_score" <;>
      simp only [hc] at h <;>
      repeat' split at h
    all_goals simp_all [pure, Except.pure]

/-- C5 (witness): the totals at concrete responses — one with an explicit
`original_total_score`, one summing the three rows. -/
theorem langlit_totals_spec_witness :
    langlit_totals (.obj [("original_total_score", .num 5)]) = .ok (5, 6)
    ∧ langlit_totals (.obj [("rowA", .obj [("score", .num 2)]),
        ("rowB", .obj [("score", .num 3)]),
        ("rowC", .obj [("score", .num 1)])]) = .ok (2 + 3 + 1, 6) :=
  ⟨(langlit_totals_spec [("original_total_score", .num 5)] [] [] [] 5 0 0 0).1 rfl,
   (langlit_totals_spec [("rowA", .obj [("score", .num 2)]),
       ("rowB", .obj [("score", .num 3)]), ("rowC", .obj [("score", .num 1)])]
     [("score", .num 2)] [("score", .num 3)] [("score", .num 1)]
     0 2 3 1).2.1 rfl rfl rfl rfl rfl rfl rfl⟩

/-- C1 (confirmed): when a language/literature response object carries a
`fact_check` object whose `score` field is 0, the rendered view contains
the fact-check block with the penalized total `rowA.score + 1 + rowC.score`,
the unpenalized total `rowA.score + rowB.score + rowC.score`, and the
fact-check reasoning text. -/
theorem langlit_factcheck_penalty_render
    (kvs fc ra rb rc : List (String × JVal)) (a b c : Int)
    (h1 : pyGetD kvs "rowA" (.obj []) = .obj ra)
    (h2 : pyGetD ra "score" (.num 0) = .num a)
    (h3 : pyGetD kvs "rowB" (.obj []) = .obj rb)
    (h4 : pyGetD rb "score" (.num 0) = .num b)
    (h5 : pyGetD kvs "rowC" (.obj []) = .obj rc)
    (h6 : pyGetD rc "score" (.num 0) = .num c)
    (h7 : pyGetD kvs "fact_check" .null = .obj fc)
    (h8 : pyGetD fc "score" (.num 1) = .num 0) :
    ContainsStr
      (factCheckHtml (pyStr (pyGetD fc "reasoning" (.str "")))
        (toString (a + 1 + c)) (toString (a + b + c)))
      (create_language_literature_html (.obj kvs)) := by
  simp only [create_language_literature_html, llBody, h1, h2, h3, h4, h5, h6, h7, h8,
    pyGetAttrD, pyAdd, pyEqZero, pyStr, pyRepr, Bind.bind, Except.bind, pure, Except.pure]
  unfold llHtmlTpl
  exact containsStr_intro _ _ _

/-- C1 (witness): the pinned instance rowA=2, rowB=3, rowC=1,
fact_check.score=0 — the view contains the fact-check block with penalized
total 2+1+1 = 4 and unpenalized total 2+3+1 = 6. -/
theorem langlit_factcheck_penalty_render_witness :
    2 + 1 + 1 = 4 ∧ 2 + 3 + 1 = 6
    ∧ ContainsStr (factCheckHtml "Misquoted the text" "4" "6")
        (create_language_literature_html (.obj [
          ("rowA", .obj [("score", .num 2)]),
          ("rowB", .obj [("score", .num 3)]),
          ("rowC", .obj [("score", .num 1)]),
          ("fact_check", .obj [("score", .num 0),
            ("reasoning", .str "Misquoted the text")])])) :=
  ⟨rfl, rfl,
   langlit_factcheck_penalty_render
     [("rowA", .obj [("score", .num 2)]), ("rowB", .obj [("score", .num 3)]),
      ("rowC", .obj [("score", .num 1)]),
      ("fact_check", .obj [("score", .num 0), ("reasoning", .str "Misquoted the text")])]
     [("score", .num 0), ("reasoning", .str "Misquoted the text")]
     [("score", .num 2)] [("score", .num 3)] [("score", .num 1)]
     2 3 1 rfl rfl rfl rfl rfl rfl rfl rfl⟩

/-- C6 (counterexample): the claim says a call failing on all three
attempts "raises a fatal error carrying the upstream status"; with every
attempt answered by a 502, the wrapper's final raise of the upstream
status is caught by its own `except Exception` clause and re-raised as a
500 — the error's status is 500, not the upstream 502, which survives only
as text inside the wrapped detail. -/
theorem retry_upstream_status_not_carried_cex :
    errStatus (call_claude_api_model (fun _ => .httpError 502 "bad gateway")).outcome = 500
    ∧ errStatus (call_claude_api_model (fun _ => .httpError 502 "bad gateway")).outcome ≠ 502
    ∧ (call_claude_api_model (fun _ => .httpError 502 "bad gateway")).outcome =
        .error (500, "Error calling Claude API: " ++
          httpExceptionStr 502 ("Claude API call failed: " ++ "bad gateway")) :=
  ⟨rfl, by decide, rfl⟩

/-- C6 (amended): the retrying wrappers perform at most 3 attempts with a
fixed 4-second sleep between attempts: two failures followed by a success
return the successful text after exactly two 4-second sleeps; three
failures raise a fatal 500 error with no fourth attempt — on a final
non-2xx response the upstream status and body reach the caller only
embedded in the wrapped detail text (`"Error calling Claude API: " +
str(HTTPException(upstream status, "Claude API call failed: " + body))`),
because the wrapper's own `except Exception` catches its final raise; on a
final exception the detail wraps the exception message.  The result
depends only on the first three attempt outcomes, and a success ends the
loop immediately. -/
theorem retry_wrapper_behavior (o o2 : Nat → Attempt) (oo : Nat → OAttempt)
    (st : Nat) (t body m : String) :
    ((o 0).isFailure = true → (o 1).isFailure = true → o 2 = .success t →
      call_claude_api_model o = ⟨.ok t, 3, [4, 4]⟩)
    ∧ ((o 0).isFailure = true → (o 1).isFailure = true → o 2 = .httpError st body →
      call_claude_api_model o =
        ⟨.error (500, "Error calling Claude API: " ++
          httpExceptionStr st ("Claude API call failed: " ++ body)), 3, [4, 4]⟩)
    ∧ ((o 0).isFailure = true → (o 1).isFailure = true → o 2 = .exc m →
      call_claude_api_model o =
        ⟨.error (500, "Error calling Claude API: " ++ m), 3, [4, 4]⟩)
    ∧ (o 0 = .success t → call_claude_api_model o = ⟨.ok t, 1, []⟩)
    ∧ ((o 0).isFailure = true → o 1 = .success t →
      call_claude_api_model o = ⟨.ok t, 2, [4]⟩)
    ∧ ((∀ i, i < 3 → o i = o2 i) →
      call_claude_api_model o = call_claude_api_model o2)
    ∧ ((oo 0).isFailure = true → (oo 1).isFailure = true → oo 2 = .success t →
      call_openai_api_model oo = ⟨.ok t, 3, [4, 4]⟩)
    ∧ ((oo 0).isFailure = true → (oo 1).isFailure = true → oo 2 = .exc m →
      call_openai_api_model oo =
        ⟨.error (500, "Error calling OpenAI API: " ++ m), 3, [4, 4]⟩)
    ∧ ((o 0).isFailure = true → (o 1).isFailure = true → o 2 = .httpError st body →
      ∃ detail, call_claude_api_model o = ⟨.error (500, detail), 3, [4, 4]⟩
        ∧ ContainsStr (toString st) detail ∧ ContainsStr body detail) := by
  refine ⟨?_, ?_, ?_, ?_, ?_, ?_, ?_, ?_, ?_⟩
  · intro h0 h1 h2
    cases a0 : o 0 <;> cases a1 : o 1 <;>
      simp_all [call_claude_api_model, claudeAttempts, Attempt.isFailure]
  · intro h0 h1 h2
    cases a0 : o 0 <;> cases a1 : o 1 <;>
      simp_all [call_claude_api_model, claudeAttempts, Attempt.isFailure]
  · intro h0 h1 h2
    cases a0 : o 0 <;> cases a1 : o 1 <;>
      simp_all [call_claude_api_model, claudeAttempts, Attempt.isFailure]
  · intro h
    simp [call_claude_api_model, claudeAttempts, h]
  · intro h0 h1
    cases a0 : o 0 <;>
      simp_all [call_claude_api_model, claudeAttempts, Attempt.isFailure]
  · intro h
    have e0 := h 0 (by decide)
    have e1 := h 1 (by decide)
    have e2 := h 2 (by decide)
    simp [call_claude_api_model, claudeAttempts, e0, e1, e2]
  · intro h0 h1 h2
    cases a0 : oo 0 <;> cases a1 : oo 1 <;>
      simp_all [call_openai_api_model, openaiAttempts, OAttempt.isFailure]
  · intro h0 h1 h2
    cases a0 : oo 0 <;> cases a1 : oo 1 <;>
      simp_all [call_openai_api_model, openaiAttempts, OAttempt.isFailure]
  · intro h0 h1 h2
    have heq : call_claude_api_model o =
        ⟨.error (500, "Error calling Claude API: " ++
          httpExceptionStr st ("Claude API call failed: " ++ body)), 3, [4, 4]⟩ := by
      cases a0 : o 0 <;> cases a1 : o 1 <;>
        simp_all [call_claude_api_model, claudeAttempts, Attempt.isFailure]
    refine ⟨"Error calling Claude API: " ++
      httpExceptionStr st ("Claude API call failed: " ++ body), heq, ?_, ?_⟩
    · unfold httpExceptionStr
      apply ContainsStr.appL
      exact ⟨"", _, rfl⟩
    · unfold httpExceptionStr
      apply ContainsStr.appL
      apply ContainsStr.appL
      apply ContainsStr.appL
      apply ContainsStr.appL
      exact containsStr_refl body

/-- C6 (witness): concrete attempt sequences — non-2xx then exception then
success returns the text after two 4-second sleeps; three consecutive 502
responses raise the 500 whose wrapped detail embeds the upstream 502 and
body; two OpenAI exceptions then a success succeed on the third attempt. -/
theorem retry_wrapper_behavior_witness :
    call_claude_api_model
      (fun i => if i = 0 then .httpError 503 "overloaded"
        else if i = 1 then .exc "timeout" else .success "graded") =
      ⟨.ok "graded", 3, [4, 4]⟩
    ∧ call_claude_api_model (fun _ => .httpError 502 "bad gateway") =
      ⟨.error (500, "Error calling Claude API: " ++
        httpExceptionStr 502 ("Claude API call failed: " ++ "bad gateway")), 3, [4, 4]⟩
    ∧ call_openai_api_model
      (fun i => if i < 2 then .exc "boom" else .success "feedback") =
      ⟨.ok "feedback", 3, [4, 4]⟩
    ∧ ∃ detail,
        call_claude_api_model (fun _ => .httpError 502 "bad gateway") =
          ⟨.error (500, detail), 3, [4, 4]⟩
        ∧ ContainsStr (toString 502) detail ∧ ContainsStr "bad gateway" detail :=
  ⟨(retry_wrapper_behavior
      (fun i => if i = 0 then .httpError 503 "overloaded"
        else if i = 1 then .exc "timeout" else .success "graded")
      (fun _ => .httpError 502 "bad gateway")
      (fun i => if i < 2 then .exc "boom" else .success "feedback")
      502 "graded" "bad gateway" "m").1 rfl rfl rfl,
   (retry_wrapper_behavior
      (fun _ => .httpError 502 "bad gateway")
      (fun _ => .httpError 502 "bad gateway")
      (fun i => if i < 2 then .exc "boom" else .success "feedback")
      502 "t" "bad gateway" "m").2.1 rfl rfl rfl,
   (retry_wrapper_behavior
      (fun _ => .httpError 502 "bad gateway")
      (fun _ => .httpError 502 "bad gateway")
      (fun i => if i < 2 then .exc "boom" else .success "feedback")
      502 "feedback" "bad gateway" "m").2.2.2.2.2.2.1 rfl rfl rfl,
   (retry_wrapper_behavior
      (fun _ => .httpError 502 "bad gateway")
      (fun _ => .httpError 502 "bad gateway")
      (fun i => if i < 2 then .exc "boom" else .success "feedback")
      502 "t" "bad gateway" "m").2.2.2.2.2.2.2.2 rfl rfl rfl⟩

/-- C7 (confirmed): the two-stage branch makes exactly two upstream
generator calls, in order — the stage-1 Claude call, then the stage-2
OpenAI call — and the stage-2 call is built and performed for every
possible stage-1 output text (the oracle is universally quantified), with
stage 1's raw output embedded verbatim (as a contiguous substring) in the
stage-2 prompt payload. -/
theorem two_stage_exactly_two_calls
    (question student_answer scoring_rubric image_data : String)
    (claudeFn openaiFn : String → String) :
    (env_branch question student_answer scoring_rubric image_data claudeFn openaiFn).1 =
      [.claudeMsg (create_claude_prompt question student_answer scoring_rubric image_data),
       .openaiMsg (create_openai_prompt (claudeFn
         (create_claude_prompt question student_answer scoring_rubric image_data)))]
    ∧ (env_branch question student_answer scoring_rubric image_data claudeFn openaiFn).1.length = 2
    ∧ ContainsStr
        (claudeFn (create_claude_prompt question student_answer scoring_rubric image_data))
        (create_openai_prompt (claudeFn
          (create_claude_prompt question student_answer scoring_rubric image_data))) := by
  refine ⟨rfl, rfl, ?_⟩
  unfold create_openai_prompt
  exact containsStr_intro _ _ _

/-- C8 (counterexample): a grading request whose required `course_title`
field is present but empty is not rejected by the router — the handler
proceeds to the classification upstream call and, here, all the way to the
general-grader POST. -/
theorem router_empty_field_not_rejected_cex :
    (grade_frq_model "" "q" "a" "r" "" (fun _ => "unparseable") (fun _ => "")
      (fun _ _ => ⟨200, "\x7b\x7d"⟩)).1 =
      [.claudeMsg (create_classification_prompt "" "q"),
       .postJson GENERAL_ENDPOINT (.obj [("question", .str "q"),
         ("student_answer", .str "a"), ("scoring_rubric", .str "r")])] :=
  rfl

/-- C8 (amended): the scorer service (`score_answer`) rejects a request
with an empty required field with a 400 validation error before any
upstream call (its upstream call list is empty); the router (`grade_frq`)
relies on the framework to reject *missing* form fields but performs no
emptiness validation of its own — for every bound field values, its first
upstream action is the classification call. -/
theorem validation_rejection_behavior
    (q sa sr ct img : String) (calcR : Bool) (calcMsg : String)
    (oai claude : String → String) (post : String → JVal → HttpResp) :
    (q = "" ∨ sa = "" ∨ sr = "" →
      score_answer_model q sa sr calcR calcMsg oai =
        ([], .error (400,
          "All fields (question, student_answer, scoring_rubric) are required")))
    ∧ (grade_frq_model ct q sa sr img claude oai post).1.head? =
        some (.claudeMsg (create_classification_prompt ct q)) := by
  constructor
  · intro h
    unfold score_answer_model
    rw [if_pos h]
  · unfold grade_frq_model
    cases hcl : classify_frq_course_extract (claude (create_classification_prompt ct q)) ct
    · simp [hcl]
    · rename_i v
      cases v <;> simp [hcl]
      rename_i s
      cases hr : route (normalize_course_name s) <;> simp [hr]

/-- C8 (witness): a request with an empty question is rejected by the
scorer with the 400 validation error and an empty upstream call list. -/
theorem validation_rejection_behavior_witness :
    score_answer_model "" "an answer" "a rubric" false "" (fun _ => "") =
      ([], .error (400,
        "All fields (question, student_answer, scoring_rubric) are required")) :=
  (validation_rejection_behavior "" "an answer" "a rubric" "" "" false ""
    (fun _ => "") (fun _ => "") (fun _ _ => ⟨200, ""⟩)).1 (Or.inl rfl)

/-- C9 (confirmed): the renderers are pure total functions of their inputs
(so rendering the same input twice is byte-identical by definition), and
failed extractions degrade to placeholders instead of failing the
document: a feedback text with no `Final Score` pattern renders the "?/?"
score slot, one with no `AP Score Estimate` pattern renders "?/5", an
absent section marker renders that section as the empty string, and the
language/literature and general renderers return the catch-all error
document rather than raising when their body fails. -/
theorem render_total_pure_placeholders (scoring feedback : String) (v w : JVal) :
    create_environmental_science_html scoring feedback =
      create_environmental_science_html scoring feedback
    ∧ (findFinalScoreStr feedback = none →
      ContainsStr "?/?" (create_environmental_science_html scoring feedback))
    ∧ (findApScoreStr feedback = none →
      ContainsStr "?/5" (create_environmental_science_html scoring feedback))
    ∧ (findIdxOfPat "✅ What You Did Well".data feedback.data = none →
      dotallLazySection "✅ What You Did Well" "⚠️" feedback = "")
    ∧ ((∃ h, llBody v = .ok h ∧ create_language_literature_html v = h) ∨
       (∃ e, llBody v = .error e ∧ create_language_literature_html v = llErrorHtml e))
    ∧ ((∃ h, generalBody w = .ok h ∧ create_general_course_html w = h) ∨
       (∃ e, generalBody w = .error e ∧ create_general_course_html w = llErrorHtml e)) := by
  refine ⟨rfl, ?_, ?_, ?_, ?_, ?_⟩
  · intro h
    simp only [create_environmental_science_html, h]
    apply ContainsStr.appL
    exact ⟨"", _, rfl⟩
  · intro h
    simp only [create_environmental_science_html, h]
    apply ContainsStr.appL
    apply ContainsStr.appL
    apply ContainsStr.appL
    apply ContainsStr.appL
    apply ContainsStr.appL
    exact ⟨"", _, rfl⟩
  · intro h
    simp [dotallLazySection, h]
  · rcases hb : llBody v with e | s
    · right; exact ⟨e, rfl, by simp [create_language_literature_html, hb]⟩
    · left; exact ⟨s, rfl, by simp [create_language_literature_html, hb]⟩
  · rcases hb : generalBody w with e | s
    · right; exact ⟨e, rfl, by simp [create_general_course_html, hb]⟩
    · left; exact ⟨s, rfl, by simp [create_general_course_html, hb]⟩

/-- C9 (witness): a feedback text with no recognizable score, estimate or
section markers renders the placeholder score slots and the empty sections. -/
theorem render_total_pure_placeholders_witness :
    findFinalScoreStr "no digits here" = none
    ∧ findApScoreStr "no digits here" = none
    ∧ findIdxOfPat "✅ What You Did Well".data "no digits here".data = none
    ∧ ContainsStr "?/?" (create_environmental_science_html "eval text" "no digits here")
    ∧ ContainsStr "?/5" (create_environmental_science_html "eval text" "no digits here")
    ∧ dotallLazySection "✅ What You Did Well" "⚠️" "no digits here" = "" :=
  ⟨rfl, rfl, rfl,
   (render_total_pure_placeholders "eval text" "no digits here" .null .null).2.1 rfl,
   (render_total_pure_placeholders "eval text" "no digits here" .null .null).2.2.1 rfl,
   (render_total_pure_placeholders "eval text" "no digits here" .null .null).2.2.2.1 rfl⟩

end APGrader
